import Mathlib

/-!
# LED backends of mce-plugin-libhybris: `sysfs-led-mind2-v2.c` and `sysfs-led-vince.c`

A shallow embedding of the two sysfs LED backends.  C `int` values are
integers of `Int`; where the source can overflow (`value *= 16`) the result
is wrapped to 32 bits explicitly.  Pointers to `sysfsval_t` objects are
`Option sysfsval_t` (`none` is the null pointer).  All file access goes
through a value store `Sysfs` that records every call made to it.
-/

namespace SysfsLed

/-! ## Machine integers -/

/-- Two's complement wrap of an integer to the range of a 32-bit C `int`. -/
def wrap32 (x : Int) : Int := (x + 2147483648) % 4294967296 - 2147483648

/-- Lower end of the C `int` range. -/
def INT_MIN : Int := -2147483648

/-- Upper end of the C `int` range. -/
def INT_MAX : Int := 2147483647

/-! ## The sysfs value cache (`sysfs-val.c`, not part of the sources at hand) -/

/-- Modelled from the spec: the `sysfsval_t` object of `sysfs-val.c`.  A handle
is either closed (`path = none`) or open on one file, and keeps the value
last read or written. -/
structure sysfsval_t where
  id    : Nat
  path  : Option String
  value : Int

/-- One call made to the value cache.  A handle is named by the `id` it got
from `sysfsval_create`; `none` stands for a call through a null pointer. -/
inductive Event where
  | create  (h : Nat)
  | open_rw (h : Option Nat) (path : String) (ok : Bool)
  | open_ro (h : Option Nat) (path : String) (ok : Bool)
  | refresh (h : Option Nat) (ok : Bool)
  | set     (h : Option Nat) (value : Int)
  | close   (h : Option Nat)
  | delete  (h : Option Nat)
  deriving DecidableEq, Repr

/-- Modelled from the spec: the file system seen through `sysfs-val.c`.
`log` is the sequence of calls made so far (oldest first), and its length
serves as the time of the next call.  `rw_ok t p` and `ro_ok t p` say
whether `p` can be opened in that mode by a call made at time `t`, and
`refresh_ok t p` whether a re-read made at time `t` succeeds, so that every
single open or refresh may have its own outcome.  `kernel p v` is the value
the kernel stores when `v` is written to `p`, `files p` is the live
content, and `next_id` the identity of the next handle to be created. -/
structure Sysfs where
  rw_ok      : Nat → String → Bool
  ro_ok      : Nat → String → Bool
  refresh_ok : Nat → String → Bool
  kernel     : String → Int → Int
  files      : String → Int
  log        : List Event
  next_id    : Nat

/-- Identity of the object behind a pointer. -/
def handle_id (h : Option sysfsval_t) : Option Nat := h.map (fun s => s.id)

/-- A pointer refers to a handle that has a file open. -/
def is_open (h : Option sysfsval_t) : Bool :=
  match h with
  | none   => false
  | some s => s.path.isSome

/-- Path of the file a pointer's handle has open, if any. -/
def open_path (h : Option sysfsval_t) : Option String :=
  match h with
  | none   => none
  | some s => s.path

/-- Record a call. -/
def Sysfs.emit (w : Sysfs) (e : Event) : Sysfs := { w with log := w.log ++ [e] }

/-- Modelled from the spec: `sysfsval_create()`, a new closed handle whose
value was never read or written. -/
def sysfsval_create (w : Sysfs) : Option sysfsval_t × Sysfs :=
  (some { id := w.next_id, path := none, value := 0 },
   { (w.emit (Event.create w.next_id)) with next_id := w.next_id + 1 })

/-- Modelled from the spec: `sysfsval_open_rw(handle, path)`; succeeds only
if the file exists and can be opened read-write.  A handle holds one file:
whatever it had open before is given up. -/
def sysfsval_open_rw (h : Option sysfsval_t) (path : String) (w : Sysfs) :
    Bool × Option sysfsval_t × Sysfs :=
  match h with
  | none   => (false, none, w.emit (Event.open_rw none path false))
  | some s =>
    if w.rw_ok w.log.length path then
      (true, some { s with path := some path }, w.emit (Event.open_rw (some s.id) path true))
    else
      (false, some { s with path := none }, w.emit (Event.open_rw (some s.id) path false))

/-- Modelled from the spec: `sysfsval_open_ro(handle, path)`; succeeds only
if the file exists and can be opened read-only. -/
def sysfsval_open_ro (h : Option sysfsval_t) (path : String) (w : Sysfs) :
    Bool × Option sysfsval_t × Sysfs :=
  match h with
  | none   => (false, none, w.emit (Event.open_ro none path false))
  | some s =>
    if w.ro_ok w.log.length path then
      (true, some { s with path := some path }, w.emit (Event.open_ro (some s.id) path true))
    else
      (false, some { s with path := none }, w.emit (Event.open_ro (some s.id) path false))

/-- Modelled from the spec: `sysfsval_refresh(handle)`; re-reads the live
value of the open file into the cache. -/
def sysfsval_refresh (h : Option sysfsval_t) (w : Sysfs) :
    Bool × Option sysfsval_t × Sysfs :=
  match h with
  | none   => (false, none, w.emit (Event.refresh none false))
  | some s =>
    match s.path with
    | none   => (false, some s, w.emit (Event.refresh (some s.id) false))
    | some p =>
      if w.refresh_ok w.log.length p then
        (true, some { s with value := w.files p }, w.emit (Event.refresh (some s.id) true))
      else
        (false, some s, w.emit (Event.refresh (some s.id) false))

/-- Modelled from the spec: `sysfsval_get(handle)`; the last cached value. -/
def sysfsval_get (h : Option sysfsval_t) : Int :=
  match h with
  | none   => 0
  | some s => s.value

/-- Modelled from the spec: `sysfsval_set(handle, value)`; writes through to
the open file and updates the cache; on an unopened handle nothing happens
apart from the call being recorded. -/
def sysfsval_set (h : Option sysfsval_t) (value : Int) (w : Sysfs) :
    Option sysfsval_t × Sysfs :=
  match h with
  | none   => (none, w.emit (Event.set none value))
  | some s =>
    match s.path with
    | none   => (some s, w.emit (Event.set (some s.id) value))
    | some p =>
      (some { s with value := value },
       { (w.emit (Event.set (some s.id) value)) with
         files := fun q => if q = p then w.kernel p value else w.files q })

/-- Modelled from the spec: `sysfsval_close(handle)`; releases the file,
keeps the cached value, and is harmless on a closed handle. -/
def sysfsval_close (h : Option sysfsval_t) (w : Sysfs) : Option sysfsval_t × Sysfs :=
  match h with
  | none   => (none, w.emit (Event.close none))
  | some s => (some { s with path := none }, w.emit (Event.close (some s.id)))

/-- Modelled from the spec: `sysfsval_delete(handle)`; releases the object.
The caller's pointer is left for the caller to clear. -/
def sysfsval_delete (h : Option sysfsval_t) (w : Sysfs) : Sysfs :=
  w.emit (Event.delete (handle_id h))

/-- Modelled from the spec: `sysfsval_delete_at(&handle)`, the form of
`delete` that is given the address of the caller's pointer; it releases the
object and clears that pointer, which is what makes a repeated teardown
release nothing. -/
def sysfsval_delete_at (h : Option sysfsval_t) (w : Sysfs) : Option sysfsval_t × Sysfs :=
  (none, sysfsval_delete h w)

/-! ## Value rescaling (`sysfs-led-util.c`, not part of the sources at hand) -/

/-- Clamp `x` to `[lo, hi]`. -/
def clamp (x lo hi : Int) : Int := if x < lo then lo else if x < hi then x else hi

/-- Modelled from the spec: `led_util_trans(value, inMin, inMax, outMin, outMax)`
of `sysfs-led-util.c`, "a linear interpolation clamped to the output range".
Division is that of C (towards zero). -/
def led_util_trans (val in_min in_max out_min out_max : Int) : Int :=
  clamp (out_min + Int.tdiv ((val - in_min) * (out_max - out_min)) (in_max - in_min))
    out_min out_max

/-! ## The control object (`sysfs-led-main.h`, not part of the sources at hand) -/

/-- Modelled from the spec: the part of `led_control_t` the probe functions
read or fill in: the backend name, whether configuration-driven probing is
enabled, the breathing capability and which optional callbacks are set. -/
structure led_control_t where
  name        : String
  use_config  : Bool
  can_breathe : Bool
  has_enable  : Bool
  has_blink   : Bool

/-! ## Dual-unit backend: `sysfs-led-mind2-v2.c` -/

/-- Number of LED units: `MIND2V2_LED_INNER`, `MIND2V2_LED_OUTER`. -/
abbrev MIND2V2_LED_COUNT : Nat := 2

/-- Index of the inner unit. -/
def MIND2V2_LED_INNER : Int := 0

/-- Index of the outer unit. -/
def MIND2V2_LED_OUTER : Int := 1

/-- Lowest brightness used when a LED is on. -/
def MIND2V2_MIN_BRIGHTNESS : Int := 1

/-- Highest brightness used when a LED is on. -/
def MIND2V2_MAX_BRIGHTNESS : Int := 63

/-- Compile-time debugging switch; `0` in the source. -/
def DIFFERENTIATE_OUTER_LED : Bool := false

/-- Paths of one LED unit. -/
structure led_paths_mind2v2_t where
  red       : String
  green     : String
  blue      : String
  red_max   : String
  green_max : String
  blue_max  : String

/-- Paths of the whole backend. -/
structure leds_paths_mind2v2_t where
  power : String
  led   : Fin MIND2V2_LED_COUNT → led_paths_mind2v2_t

/-- State of one LED unit. -/
structure led_state_mind2v2_t where
  cached_red       : Option sysfsval_t
  cached_green     : Option sysfsval_t
  cached_blue      : Option sysfsval_t
  cached_red_max   : Option sysfsval_t
  cached_green_max : Option sysfsval_t
  cached_blue_max  : Option sysfsval_t

/-- State of the whole backend. -/
structure leds_state_mind2v2_t where
  cached_power : Option sysfsval_t
  led          : Fin MIND2V2_LED_COUNT → led_state_mind2v2_t

/-- The loop `for( int idx = 0; idx < MIND2V2_LED_COUNT; ++idx )` visits these. -/
def MIND2V2_LED_INDICES : List (Fin MIND2V2_LED_COUNT) := [0, 1]

/-- As `led_state_mind2v2_init`. -/
def led_state_mind2v2_init (w : Sysfs) : led_state_mind2v2_t × Sysfs :=
  let r  := sysfsval_create w
  let g  := sysfsval_create r.2
  let b  := sysfsval_create g.2
  let rm := sysfsval_create b.2
  let gm := sysfsval_create rm.2
  let bm := sysfsval_create gm.2
  ({ cached_red := r.1, cached_green := g.1, cached_blue := b.1,
     cached_red_max := rm.1, cached_green_max := gm.1, cached_blue_max := bm.1 }, bm.2)

/-- As `led_state_mind2v2_quit`. -/
def led_state_mind2v2_quit (self : led_state_mind2v2_t) (w : Sysfs) :
    led_state_mind2v2_t × Sysfs :=
  let r  := sysfsval_delete_at self.cached_red w
  let g  := sysfsval_delete_at self.cached_green r.2
  let b  := sysfsval_delete_at self.cached_blue g.2
  let rm := sysfsval_delete_at self.cached_red_max b.2
  let gm := sysfsval_delete_at self.cached_green_max rm.2
  let bm := sysfsval_delete_at self.cached_blue_max gm.2
  ({ cached_red := r.1, cached_green := g.1, cached_blue := b.1,
     cached_red_max := rm.1, cached_green_max := gm.1, cached_blue_max := bm.1 }, bm.2)

/-- As `led_state_mind2v2_close`. -/
def led_state_mind2v2_close (self : led_state_mind2v2_t) (w : Sysfs) :
    led_state_mind2v2_t × Sysfs :=
  let r  := sysfsval_close self.cached_red w
  let g  := sysfsval_close self.cached_green r.2
  let b  := sysfsval_close self.cached_blue g.2
  let rm := sysfsval_close self.cached_red_max b.2
  let gm := sysfsval_close self.cached_green_max rm.2
  let bm := sysfsval_close self.cached_blue_max gm.2
  ({ cached_red := r.1, cached_green := g.1, cached_blue := b.1,
     cached_red_max := rm.1, cached_green_max := gm.1, cached_blue_max := bm.1 }, bm.2)

/-- First test of `led_state_mind2v2_brobe`: the `||` chain that opens the
three colour files read-write, stopping at the first that fails.  The
Boolean says that all three opened. -/
def led_state_mind2v2_brobe_open_rw (self : led_state_mind2v2_t) (paths : led_paths_mind2v2_t)
    (w : Sysfs) : Bool × led_state_mind2v2_t × Sysfs :=
  let r := sysfsval_open_rw self.cached_red paths.red w
  let self := { self with cached_red := r.2.1 }
  if !r.1 then (false, self, r.2.2) else
  let g := sysfsval_open_rw self.cached_green paths.green r.2.2
  let self := { self with cached_green := g.2.1 }
  if !g.1 then (false, self, g.2.2) else
  let b := sysfsval_open_rw self.cached_blue paths.blue g.2.2
  let self := { self with cached_blue := b.2.1 }
  if !b.1 then (false, self, b.2.2) else
  (true, self, b.2.2)

/-- Second test of `led_state_mind2v2_brobe`: the `||` chain that opens the
three max_brightness files read-only. -/
def led_state_mind2v2_brobe_open_ro (self : led_state_mind2v2_t) (paths : led_paths_mind2v2_t)
    (w : Sysfs) : Bool × led_state_mind2v2_t × Sysfs :=
  let rm := sysfsval_open_ro self.cached_red_max paths.red_max w
  let self := { self with cached_red_max := rm.2.1 }
  if !rm.1 then (false, self, rm.2.2) else
  let gm := sysfsval_open_ro self.cached_green_max paths.green_max rm.2.2
  let self := { self with cached_green_max := gm.2.1 }
  if !gm.1 then (false, self, gm.2.2) else
  let bm := sysfsval_open_ro self.cached_blue_max paths.blue_max gm.2.2
  let self := { self with cached_blue_max := bm.2.1 }
  if !bm.1 then (false, self, bm.2.2) else
  (true, self, bm.2.2)

/-- Third test of `led_state_mind2v2_brobe`: the `||` chain that refreshes the
three max_brightness values. -/
def led_state_mind2v2_brobe_refresh (self : led_state_mind2v2_t) (w : Sysfs) :
    Bool × led_state_mind2v2_t × Sysfs :=
  let rr := sysfsval_refresh self.cached_red_max w
  let self := { self with cached_red_max := rr.2.1 }
  if !rr.1 then (false, self, rr.2.2) else
  let gr := sysfsval_refresh self.cached_green_max rr.2.2
  let self := { self with cached_green_max := gr.2.1 }
  if !gr.1 then (false, self, gr.2.2) else
  let br := sysfsval_refresh self.cached_blue_max gr.2.2
  let self := { self with cached_blue_max := br.2.1 }
  if !br.1 then (false, self, br.2.2) else
  (true, self, br.2.2)

/-- Fourth test of `led_state_mind2v2_brobe`: some reported maximum is not
positive. -/
def led_state_mind2v2_brobe_bad_max (self : led_state_mind2v2_t) : Bool :=
  decide (sysfsval_get self.cached_red_max ≤ 0) ||
  decide (sysfsval_get self.cached_green_max ≤ 0) ||
  decide (sysfsval_get self.cached_blue_max ≤ 0)

/-- The part of `led_state_mind2v2_brobe` above the `cleanup:` label: the four
tests in turn, each followed by `goto cleanup` when it fails.  The Boolean
is the value of `res` on arrival at `cleanup:`. -/
def led_state_mind2v2_brobe_checks (self : led_state_mind2v2_t) (paths : led_paths_mind2v2_t)
    (w : Sysfs) : Bool × led_state_mind2v2_t × Sysfs :=
  let a := led_state_mind2v2_brobe_open_rw self paths w
  if !a.1 then (false, a.2.1, a.2.2) else
  let b := led_state_mind2v2_brobe_open_ro a.2.1 paths a.2.2
  if !b.1 then (false, b.2.1, b.2.2) else
  let c := led_state_mind2v2_brobe_refresh b.2.1 b.2.2
  if !c.1 then (false, c.2.1, c.2.2) else
  if led_state_mind2v2_brobe_bad_max c.2.1 then (false, c.2.1, c.2.2) else
  (true, c.2.1, c.2.2)

/-- As `led_state_mind2v2_brobe`: the checks, then the `cleanup:` part. -/
def led_state_mind2v2_brobe (self : led_state_mind2v2_t) (paths : led_paths_mind2v2_t)
    (w : Sysfs) : Bool × led_state_mind2v2_t × Sysfs :=
  let c := led_state_mind2v2_brobe_checks self paths w
  let res := c.1
  let self := c.2.1
  let rm := sysfsval_close self.cached_red_max c.2.2
  let gm := sysfsval_close self.cached_green_max rm.2
  let bm := sysfsval_close self.cached_blue_max gm.2
  let self := { self with cached_red_max := rm.1, cached_green_max := gm.1,
                          cached_blue_max := bm.1 }
  if !res then
    let q := led_state_mind2v2_close self bm.2
    (res, q.1, q.2)
  else
    (res, self, bm.2)

/-- As `led_state_mind2v2_scale_value`. -/
def led_state_mind2v2_scale_value (val max_val : Int) : Int :=
  if val ≤ 0 then
    0
  else
    let max_val := if max_val > MIND2V2_MAX_BRIGHTNESS then MIND2V2_MAX_BRIGHTNESS else max_val
    led_util_trans val 1 255 MIND2V2_MIN_BRIGHTNESS max_val

/-- As `led_state_mind2v2_set_value`. -/
def led_state_mind2v2_set_value (self : led_state_mind2v2_t) (r g b : Int) (w : Sysfs) :
    led_state_mind2v2_t × Sysfs :=
  let r := led_state_mind2v2_scale_value r (sysfsval_get self.cached_red_max)
  let g := led_state_mind2v2_scale_value g (sysfsval_get self.cached_green_max)
  let b := led_state_mind2v2_scale_value b (sysfsval_get self.cached_blue_max)
  let sr := sysfsval_set self.cached_red r w
  let sg := sysfsval_set self.cached_green g sr.2
  let sb := sysfsval_set self.cached_blue b sg.2
  ({ self with cached_red := sr.1, cached_green := sg.1, cached_blue := sb.1 }, sb.2)

/-- As `led_state_mind2v2_is_active`. -/
def led_state_mind2v2_is_active (self : led_state_mind2v2_t) : Bool :=
  decide (sysfsval_get self.cached_red > 0) ||
  decide (sysfsval_get self.cached_green > 0) ||
  decide (sysfsval_get self.cached_blue > 0)

/-- As `leds_state_mind2v2_valid_index`. -/
def leds_state_mind2v2_valid_index (idx : Int) : Bool :=
  decide (0 ≤ idx) && decide (idx < MIND2V2_LED_COUNT)

/-- The unit `self->led[idx]` of a valid index. -/
def leds_state_mind2v2_index (idx : Int) : Fin MIND2V2_LED_COUNT :=
  if idx = 0 then 0 else 1

/-- The loop of `leds_state_mind2v2_init` over the given units. -/
def leds_state_mind2v2_init_leds :
    List (Fin MIND2V2_LED_COUNT) → leds_state_mind2v2_t → Sysfs → leds_state_mind2v2_t × Sysfs
  | [], self, w => (self, w)
  | idx :: rest, self, w =>
    let i := led_state_mind2v2_init w
    leds_state_mind2v2_init_leds rest { self with led := Function.update self.led idx i.1 } i.2

/-- As `leds_state_mind2v2_init`. -/
def leds_state_mind2v2_init (self : leds_state_mind2v2_t) (w : Sysfs) :
    leds_state_mind2v2_t × Sysfs :=
  let p := sysfsval_create w
  leds_state_mind2v2_init_leds MIND2V2_LED_INDICES { self with cached_power := p.1 } p.2

/-- The loop of `leds_state_mind2v2_quit` over the given units. -/
def leds_state_mind2v2_quit_leds :
    List (Fin MIND2V2_LED_COUNT) → leds_state_mind2v2_t → Sysfs → leds_state_mind2v2_t × Sysfs
  | [], self, w => (self, w)
  | idx :: rest, self, w =>
    let q := led_state_mind2v2_quit (self.led idx) w
    leds_state_mind2v2_quit_leds rest { self with led := Function.update self.led idx q.1 } q.2

/-- As `leds_state_mind2v2_quit`. -/
def leds_state_mind2v2_quit (self : leds_state_mind2v2_t) (w : Sysfs) :
    leds_state_mind2v2_t × Sysfs :=
  let p := sysfsval_delete_at self.cached_power w
  leds_state_mind2v2_quit_leds MIND2V2_LED_INDICES { self with cached_power := p.1 } p.2

/-- The loop of `leds_state_mind2v2_close` over the given units. -/
def leds_state_mind2v2_close_leds :
    List (Fin MIND2V2_LED_COUNT) → leds_state_mind2v2_t → Sysfs → leds_state_mind2v2_t × Sysfs
  | [], self, w => (self, w)
  | idx :: rest, self, w =>
    let q := led_state_mind2v2_close (self.led idx) w
    leds_state_mind2v2_close_leds rest { self with led := Function.update self.led idx q.1 } q.2

/-- As `leds_state_mind2v2_close`. -/
def leds_state_mind2v2_close (self : leds_state_mind2v2_t) (w : Sysfs) :
    leds_state_mind2v2_t × Sysfs :=
  let p := sysfsval_close self.cached_power w
  leds_state_mind2v2_close_leds MIND2V2_LED_INDICES { self with cached_power := p.1 } p.2

/-- The loop of `leds_state_mind2v2_probe` over the given units; it stops at
the first unit whose probe fails.  The Boolean is `res` on arrival at
`cleanup:`. -/
def leds_state_mind2v2_probe_leds (paths : leds_paths_mind2v2_t) :
    List (Fin MIND2V2_LED_COUNT) → leds_state_mind2v2_t → Sysfs →
      Bool × leds_state_mind2v2_t × Sysfs
  | [], self, w => (true, self, w)
  | idx :: rest, self, w =>
    let b := led_state_mind2v2_brobe (self.led idx) (paths.led idx) w
    let self := { self with led := Function.update self.led idx b.2.1 }
    if !b.1 then (false, self, b.2.2)
    else leds_state_mind2v2_probe_leds paths rest self b.2.2

/-- As `leds_state_mind2v2_probe`. -/
def leds_state_mind2v2_probe (self : leds_state_mind2v2_t) (paths : leds_paths_mind2v2_t)
    (w : Sysfs) : Bool × leds_state_mind2v2_t × Sysfs :=
  let p := sysfsval_open_rw self.cached_power paths.power w
  let self := { self with cached_power := p.2.1 }
  let c : Bool × leds_state_mind2v2_t × Sysfs :=
    if !p.1 then (false, self, p.2.2)
    else leds_state_mind2v2_probe_leds paths MIND2V2_LED_INDICES self p.2.2
  if !c.1 then
    let q := leds_state_mind2v2_close c.2.1 c.2.2
    (c.1, q.1, q.2)
  else
    c

/-- The loop of `leds_state_mind2v2_update_power`: the value of `power` when
the loop is left, either by `break` or at its end. -/
def leds_state_mind2v2_update_power_scan (self : leds_state_mind2v2_t) :
    List (Fin MIND2V2_LED_COUNT) → Bool → Bool
  | [], power => power
  | idx :: rest, _ =>
    let power := led_state_mind2v2_is_active (self.led idx)
    if power then power else leds_state_mind2v2_update_power_scan self rest power

/-- As `leds_state_mind2v2_update_power`. -/
def leds_state_mind2v2_update_power (self : leds_state_mind2v2_t) (w : Sysfs) :
    leds_state_mind2v2_t × Sysfs :=
  let power := leds_state_mind2v2_update_power_scan self MIND2V2_LED_INDICES false
  if power then
    let s := sysfsval_set self.cached_power 1 w
    ({ self with cached_power := s.1 }, s.2)
  else
    (self, w)

/-- As `leds_state_mind2v2_set_value`. -/
def leds_state_mind2v2_set_value (self : leds_state_mind2v2_t) (idx : Int) (r g b : Int)
    (w : Sysfs) : leds_state_mind2v2_t × Sysfs :=
  if leds_state_mind2v2_valid_index idx then
    let s := led_state_mind2v2_set_value (self.led (leds_state_mind2v2_index idx)) r g b w
    ({ self with led := Function.update self.led (leds_state_mind2v2_index idx) s.1 }, s.2)
  else
    (self, w)

/-- As `led_control_mind2v2_value_cb`. -/
def led_control_mind2v2_value_cb (state : leds_state_mind2v2_t) (r g b : Int) (w : Sysfs) :
    leds_state_mind2v2_t × Sysfs :=
  let i := leds_state_mind2v2_set_value state MIND2V2_LED_INNER r g b w
  let o := if DIFFERENTIATE_OUTER_LED then
             leds_state_mind2v2_set_value i.1 MIND2V2_LED_OUTER g b r i.2
           else
             leds_state_mind2v2_set_value i.1 MIND2V2_LED_OUTER r g b i.2
  leds_state_mind2v2_update_power o.1 o.2

/-- As `led_control_mind2v2_close_cb`. -/
def led_control_mind2v2_close_cb (state : leds_state_mind2v2_t) (w : Sysfs) :
    leds_state_mind2v2_t × Sysfs :=
  leds_state_mind2v2_quit state w

/-- The path table of `led_control_mind2v2_static_probe`. -/
def mind2v2_static_paths : leds_paths_mind2v2_t where
  power := "/sys/class/leds/Led/brightness"
  led := fun idx =>
    if idx = 0 then
      { red       := "/sys/class/leds/Ired/brightness"
        green     := "/sys/class/leds/Igreen/brightness"
        blue      := "/sys/class/leds/Iblue/brightness"
        red_max   := "/sys/class/leds/Ired/max_brightness"
        green_max := "/sys/class/leds/Igreen/max_brightness"
        blue_max  := "/sys/class/leds/Iblue/max_brightness" }
    else
      { red       := "/sys/class/leds/Ored/brightness"
        green     := "/sys/class/leds/Ogreen/brightness"
        blue      := "/sys/class/leds/Oblue/brightness"
        red_max   := "/sys/class/leds/Ored/max_brightness"
        green_max := "/sys/class/leds/Ogreen/max_brightness"
        blue_max  := "/sys/class/leds/Oblue/max_brightness" }

/-- As `led_control_mind2v2_static_probe`. -/
def led_control_mind2v2_static_probe (state : leds_state_mind2v2_t) (w : Sysfs) :
    Bool × leds_state_mind2v2_t × Sysfs :=
  leds_state_mind2v2_probe state mind2v2_static_paths w

/-- As `led_control_mind2v2_dynamic_probe`: no configuration for now. -/
def led_control_mind2v2_dynamic_probe (state : leds_state_mind2v2_t) (w : Sysfs) :
    Bool × leds_state_mind2v2_t × Sysfs :=
  (false, state, w)

/-- The zero-initialised `static leds_state_mind2v2_t state = { }`. -/
def leds_state_mind2v2_zero : leds_state_mind2v2_t where
  cached_power := none
  led := fun _ =>
    { cached_red := none, cached_green := none, cached_blue := none,
      cached_red_max := none, cached_green_max := none, cached_blue_max := none }

/-- As `led_control_mind2v2_probe`, applied to the state the static variable
holds on entry. -/
def led_control_mind2v2_probe (self : led_control_t) (state : leds_state_mind2v2_t)
    (w : Sysfs) : Bool × led_control_t × leds_state_mind2v2_t × Sysfs :=
  let i := leds_state_mind2v2_init state w
  let self := { self with name := "mind2v2", has_enable := false, has_blink := false,
                          can_breathe := true }
  let d : Bool × leds_state_mind2v2_t × Sysfs :=
    if self.use_config then led_control_mind2v2_dynamic_probe i.1 i.2 else (false, i.1, i.2)
  let s : Bool × leds_state_mind2v2_t × Sysfs :=
    if !d.1 then led_control_mind2v2_static_probe d.2.1 d.2.2 else d
  if !s.1 then
    let q := leds_state_mind2v2_quit s.2.1 s.2.2
    (s.1, self, q.1, q.2)
  else
    (s.1, self, s.2.1, s.2.2)

/-! ## Triple-channel backend: `sysfs-led-vince.c` -/

/-- Number of channels. -/
abbrev VINCE_CHANNELS : Nat := 3

/-- Paths of one channel. -/
structure led_paths_vince_t where
  max_brightness : String
  brightness     : String
  blink          : String
  deriving DecidableEq

/-- State of one channel. -/
structure led_channel_vince_t where
  cached_max_brightness : Option sysfsval_t
  cached_brightness     : Option sysfsval_t
  cached_blink          : Option sysfsval_t
  control_value         : Int
  control_blink         : Bool

/-- As `led_channel_vince_init`. -/
def led_channel_vince_init (w : Sysfs) : led_channel_vince_t × Sysfs :=
  let m := sysfsval_create w
  let b := sysfsval_create m.2
  let k := sysfsval_create b.2
  ({ cached_max_brightness := m.1, cached_brightness := b.1, cached_blink := k.1,
     control_blink := false, control_value := 0 }, k.2)

/-- As `led_channel_vince_close`. -/
def led_channel_vince_close (self : led_channel_vince_t) (w : Sysfs) :
    led_channel_vince_t × Sysfs :=
  let w := sysfsval_delete self.cached_max_brightness w
  let self := { self with cached_max_brightness := none }
  let w := sysfsval_delete self.cached_brightness w
  let self := { self with cached_brightness := none }
  let w := sysfsval_delete self.cached_blink w
  let self := { self with cached_blink := none }
  (self, w)

/-- The part of `led_channel_vince_probe` above the `cleanup:` label.  The
Boolean is the value of `ack` on arrival at `cleanup:`. -/
def led_channel_vince_probe_checks (self : led_channel_vince_t) (path : led_paths_vince_t)
    (w : Sysfs) : Bool × led_channel_vince_t × Sysfs :=
  let k := sysfsval_open_rw self.cached_blink path.blink w
  let self := { self with cached_blink := k.2.1 }
  if !k.1 then (false, self, k.2.2) else
  let m := sysfsval_open_ro self.cached_max_brightness path.max_brightness k.2.2
  let self := { self with cached_max_brightness := m.2.1 }
  if !m.1 then (false, self, m.2.2) else
  let s := sysfsval_set self.cached_max_brightness 255 m.2.2
  let self := { self with cached_max_brightness := s.1 }
  let r := sysfsval_refresh self.cached_max_brightness s.2
  let self := { self with cached_max_brightness := r.2.1 }
  if sysfsval_get self.cached_max_brightness ≤ 0 then (false, self, r.2.2) else
  let b := sysfsval_open_rw self.cached_brightness path.brightness r.2.2
  let self := { self with cached_brightness := b.2.1 }
  if !b.1 then (false, self, b.2.2) else
  (true, self, b.2.2)

/-- As `led_channel_vince_probe`: the checks, then the `cleanup:` part. -/
def led_channel_vince_probe (self : led_channel_vince_t) (path : led_paths_vince_t)
    (w : Sysfs) : Bool × led_channel_vince_t × Sysfs :=
  let c := led_channel_vince_probe_checks self path w
  let ack := c.1
  let self := c.2.1
  let m := sysfsval_close self.cached_max_brightness c.2.2
  let self := { self with cached_max_brightness := m.1 }
  if !ack then
    let b := sysfsval_close self.cached_brightness m.2
    let k := sysfsval_close self.cached_blink b.2
    (ack, { self with cached_brightness := b.1, cached_blink := k.1 }, k.2)
  else
    (ack, self, m.2)

/-- The first two statements of `led_channel_vince_set_value`: `value *= 16`
in 32-bit arithmetic, then the clamp to `0 .. 255`. -/
def led_channel_vince_rescale (value : Int) : Int :=
  let value := wrap32 (value * 16)
  if value < 0 then 0 else if value < 255 then value else 255

/-- As `led_channel_vince_set_value`. -/
def led_channel_vince_set_value (self : led_channel_vince_t) (value : Int) (w : Sysfs) :
    led_channel_vince_t × Sysfs :=
  let value := led_channel_vince_rescale value
  let self := if value ≤ 0 then { self with control_blink := false } else self
  if self.control_blink then
    let b := sysfsval_set self.cached_brightness 0 w
    let k := sysfsval_set self.cached_blink 1 b.2
    ({ self with cached_brightness := b.1, cached_blink := k.1 }, k.2)
  else
    let k := sysfsval_set self.cached_blink 0 w
    let b := sysfsval_set self.cached_brightness value k.2
    ({ self with cached_blink := k.1, cached_brightness := b.1 }, b.2)

/-- As `led_channel_vince_set_blink`. -/
def led_channel_vince_set_blink (self : led_channel_vince_t) (on_ms off_ms : Int) :
    led_channel_vince_t :=
  { self with control_blink := decide (on_ms ≠ 0) && decide (off_ms ≠ 0) }

/-- The array `led_channel_vince_t channel[VINCE_CHANNELS]`. -/
abbrev vince_channels_t : Type := Fin VINCE_CHANNELS → led_channel_vince_t

/-- As `led_control_vince_blink_cb`. -/
def led_control_vince_blink_cb (channel : vince_channels_t) (on_ms off_ms : Int) :
    vince_channels_t :=
  let channel := Function.update channel 0 (led_channel_vince_set_blink (channel 0) on_ms off_ms)
  let channel := Function.update channel 1 (led_channel_vince_set_blink (channel 1) on_ms off_ms)
  let channel := Function.update channel 2 (led_channel_vince_set_blink (channel 2) on_ms off_ms)
  channel

/-- As `led_control_vince_value_cb`. -/
def led_control_vince_value_cb (channel : vince_channels_t) (r g b : Int) (w : Sysfs) :
    vince_channels_t × Sysfs :=
  let c0 := led_channel_vince_set_value (channel 0) r w
  let channel := Function.update channel 0 c0.1
  let c1 := led_channel_vince_set_value (channel 1) g c0.2
  let channel := Function.update channel 1 c1.1
  let c2 := led_channel_vince_set_value (channel 2) b c1.2
  let channel := Function.update channel 2 c2.1
  (channel, c2.2)

/-- As `led_control_vince_close_cb`. -/
def led_control_vince_close_cb (channel : vince_channels_t) (w : Sysfs) :
    vince_channels_t × Sysfs :=
  let c0 := led_channel_vince_close (channel 0) w
  let channel := Function.update channel 0 c0.1
  let c1 := led_channel_vince_close (channel 1) c0.2
  let channel := Function.update channel 1 c1.1
  let c2 := led_channel_vince_close (channel 2) c1.2
  let channel := Function.update channel 2 c2.1
  (channel, c2.2)

/-- The table `vince_paths` of `led_control_vince_static_probe`: one candidate,
"vince (Xiaomi Redmi 5 Plus)", whose three channels name the same files. -/
def vince_paths : List (Fin VINCE_CHANNELS → led_paths_vince_t) :=
  [ fun _ =>
      { max_brightness := "/sys/class/leds/red/max_brightness"
        brightness     := "/sys/class/leds/red/brightness"
        blink          := "/sys/class/leds/red/blink" } ]

/-- One pass of the loop body of `led_control_vince_static_probe`: the `&&`
chain of the three channel probes of candidate `cand`, stopping at the first
that fails. -/
def led_control_vince_static_probe_candidate (channel : vince_channels_t)
    (cand : Fin VINCE_CHANNELS → led_paths_vince_t) (w : Sysfs) :
    Bool × vince_channels_t × Sysfs :=
  let c0 := led_channel_vince_probe (channel 0) (cand 0) w
  let channel := Function.update channel 0 c0.2.1
  if !c0.1 then (false, channel, c0.2.2) else
  let c1 := led_channel_vince_probe (channel 1) (cand 1) c0.2.2
  let channel := Function.update channel 1 c1.2.1
  if !c1.1 then (false, channel, c1.2.2) else
  let c2 := led_channel_vince_probe (channel 2) (cand 2) c1.2.2
  let channel := Function.update channel 2 c2.2.1
  if !c2.1 then (false, channel, c2.2.2) else
  (true, channel, c2.2.2)

/-- The loop of `led_control_vince_static_probe` over a table of candidates. -/
def led_control_vince_static_probe_loop :
    List (Fin VINCE_CHANNELS → led_paths_vince_t) → vince_channels_t → Sysfs →
      Bool × vince_channels_t × Sysfs
  | [], channel, w => (false, channel, w)
  | cand :: rest, channel, w =>
    let c := led_control_vince_static_probe_candidate channel cand w
    if c.1 then (true, c.2.1, c.2.2)
    else led_control_vince_static_probe_loop rest c.2.1 c.2.2

/-- As `led_control_vince_static_probe`. -/
def led_control_vince_static_probe (channel : vince_channels_t) (w : Sysfs) :
    Bool × vince_channels_t × Sysfs :=
  led_control_vince_static_probe_loop vince_paths channel w

/-- The prefixes `pfix` of `led_control_vince_dynamic_probe`. -/
def vince_pfix (i : Fin VINCE_CHANNELS) : String :=
  if i = 0 then "Red" else if i = 1 then "Green" else "Blue"

/-- Modelled from the spec: the configuration parser `objconf_parse` of
`plugin-config.c` applied to the table `vince_conf`.  For a key prefix it
yields the three paths of a channel, or nothing when a required key is
missing. -/
abbrev objconf_t : Type := String → Option led_paths_vince_t

/-- The main loop of `led_control_vince_dynamic_probe` over the given
channels: parse, then probe, leaving at the first failure.  The Boolean is
`ack` on arrival at `cleanup:`. -/
def led_control_vince_dynamic_probe_loop (conf : objconf_t) :
    List (Fin VINCE_CHANNELS) → vince_channels_t → Sysfs → Bool × vince_channels_t × Sysfs
  | [], channel, w => (true, channel, w)
  | i :: rest, channel, w =>
    match conf (vince_pfix i) with
    | none => (false, channel, w)
    | some paths =>
      let c := led_channel_vince_probe (channel i) paths w
      let channel := Function.update channel i c.2.1
      if !c.1 then (false, channel, c.2.2)
      else led_control_vince_dynamic_probe_loop conf rest channel c.2.2

/-- The loop `for( size_t i = 0; i < VINCE_CHANNELS; ++i )` visits these. -/
def VINCE_CHANNEL_INDICES : List (Fin VINCE_CHANNELS) := [0, 1, 2]

/-- As `led_control_vince_dynamic_probe`.  The `cleanup:` part only frees the
path strings (`objconf_quit`) and touches neither channels nor files. -/
def led_control_vince_dynamic_probe (conf : objconf_t) (channel : vince_channels_t)
    (w : Sysfs) : Bool × vince_channels_t × Sysfs :=
  led_control_vince_dynamic_probe_loop conf VINCE_CHANNEL_INDICES channel w

/-- Modelled from the spec: `led_control_close(self)` of `sysfs-led-main.c`,
which releases the backend through its `close` callback; for this backend
that is `led_control_vince_close_cb`. -/
def led_control_close (channel : vince_channels_t) (w : Sysfs) : vince_channels_t × Sysfs :=
  led_control_vince_close_cb channel w

/-- The three `led_channel_vince_init` calls at the top of
`led_control_vince_probe`. -/
def led_control_vince_probe_init (channel : vince_channels_t) (w : Sysfs) :
    vince_channels_t × Sysfs :=
  let i0 := led_channel_vince_init w
  let channel := Function.update channel 0 i0.1
  let i1 := led_channel_vince_init i0.2
  let channel := Function.update channel 1 i1.1
  let i2 := led_channel_vince_init i1.2
  let channel := Function.update channel 2 i2.1
  (channel, i2.2)

/-- As `led_control_vince_probe`, applied to the content the static array
`channel` has on entry. -/
def led_control_vince_probe (conf : objconf_t) (self : led_control_t)
    (channel : vince_channels_t) (w : Sysfs) :
    Bool × led_control_t × vince_channels_t × Sysfs :=
  let i := led_control_vince_probe_init channel w
  let self := { self with name := "vince", has_enable := false, has_blink := true,
                          can_breathe := false }
  let d : Bool × vince_channels_t × Sysfs :=
    if self.use_config then led_control_vince_dynamic_probe conf i.1 i.2
    else (false, i.1, i.2)
  let s : Bool × vince_channels_t × Sysfs :=
    if !d.1 then led_control_vince_static_probe d.2.1 d.2.2 else d
  if !s.1 then
    let q := led_control_close s.2.1 s.2.2
    (s.1, self, q.1, q.2)
  else
    (s.1, self, s.2.1, s.2.2)

/-! ## Example worlds and states used to instantiate the theorems -/

/-- A file system in which every file opens in every mode, re-reads succeed
and the kernel caps written values at 255. -/
def sysfs_all_ok : Sysfs where
  rw_ok      := fun _ _ => true
  ro_ok      := fun _ _ => true
  refresh_ok := fun _ _ => true
  kernel     := fun _ v => if v < 255 then v else 255
  files      := fun _ => 255
  log        := []
  next_id    := 0

/-- A unit whose three colour handles are open and hold the given values. -/
def mind2v2_unit_at (r g b : Int) : led_state_mind2v2_t where
  cached_red       := some { id := 1, path := some "red", value := r }
  cached_green     := some { id := 2, path := some "green", value := g }
  cached_blue      := some { id := 3, path := some "blue", value := b }
  cached_red_max   := some { id := 4, path := none, value := 255 }
  cached_green_max := some { id := 5, path := none, value := 255 }
  cached_blue_max  := some { id := 6, path := none, value := 255 }

/-- Unit A at (0,0,0) and unit B at (0,5,0), power handle open. -/
def mind2v2_power_example : leds_state_mind2v2_t where
  cached_power := some { id := 0, path := some "power", value := 0 }
  led := fun idx => if idx = 0 then mind2v2_unit_at 0 0 0 else mind2v2_unit_at 0 5 0

/-- A channel with open handles that has been asked to blink. -/
def vince_blinking_channel : led_channel_vince_t :=
  led_channel_vince_set_blink
    { cached_max_brightness := some { id := 0, path := none, value := 255 }
      cached_brightness     := some { id := 1, path := some "brightness", value := 0 }
      cached_blink          := some { id := 2, path := some "blink", value := 0 }
      control_value         := 0
      control_blink         := false } 500 500

/-! ## Predicates on backend states -/

/-- None of the six handles of a unit has a file open. -/
def led_state_mind2v2_all_closed (s : led_state_mind2v2_t) : Bool :=
  !is_open s.cached_red && !is_open s.cached_green && !is_open s.cached_blue &&
  !is_open s.cached_red_max && !is_open s.cached_green_max && !is_open s.cached_blue_max

/-- The three colour handles of a unit are open and its three max_brightness
handles are closed. -/
def led_state_mind2v2_active (s : led_state_mind2v2_t) : Bool :=
  is_open s.cached_red && is_open s.cached_green && is_open s.cached_blue &&
  !is_open s.cached_red_max && !is_open s.cached_green_max && !is_open s.cached_blue_max

/-- A file system in which every file opens except the red brightness file of
the outer unit. -/
def sysfs_no_outer_red : Sysfs :=
  { sysfs_all_ok with rw_ok := fun _ p => p != "/sys/class/leds/Ored/brightness" }

/-- The state and world `leds_state_mind2v2_init` builds in a given world. -/
def mind2v2_fresh (w : Sysfs) : leds_state_mind2v2_t × Sysfs :=
  leds_state_mind2v2_init leds_state_mind2v2_zero w

/-- The zero-initialised `static led_channel_vince_t channel[VINCE_CHANNELS]`. -/
def vince_channels_zero : vince_channels_t := fun _ =>
  { cached_max_brightness := none, cached_brightness := none, cached_blink := none,
    control_value := 0, control_blink := false }

/-- The channels and world `led_control_vince_probe` starts its probing from. -/
def vince_fresh (w : Sysfs) : vince_channels_t × Sysfs :=
  led_control_vince_probe_init vince_channels_zero w

/-- A device with a red LED only: the three control files of
`/sys/class/leds/red` exist, nothing else does. -/
def sysfs_red_only : Sysfs :=
  { sysfs_all_ok with
    rw_ok := fun _ p =>
      p == "/sys/class/leds/red/brightness" || p == "/sys/class/leds/red/blink"
    ro_ok := fun _ p => p == "/sys/class/leds/red/max_brightness" }

/-- A configuration that names the red LED for the prefix `Red` and LEDs the
device does not have for `Green` and `Blue`. -/
def vince_conf_rgb : objconf_t := fun pfix =>
  if pfix = "Red" then
    some { max_brightness := "/sys/class/leds/red/max_brightness"
           brightness     := "/sys/class/leds/red/brightness"
           blink          := "/sys/class/leds/red/blink" }
  else if pfix = "Green" then
    some { max_brightness := "/sys/class/leds/green/max_brightness"
           brightness     := "/sys/class/leds/green/brightness"
           blink          := "/sys/class/leds/green/blink" }
  else if pfix = "Blue" then
    some { max_brightness := "/sys/class/leds/blue/max_brightness"
           brightness     := "/sys/class/leds/blue/brightness"
           blink          := "/sys/class/leds/blue/blink" }
  else
    none

/-- The three handle identities of a channel, in the order in which
`led_channel_vince_close` deletes them. -/
def led_channel_vince_ids (c : led_channel_vince_t) : List (Option Nat) :=
  [handle_id c.cached_max_brightness, handle_id c.cached_brightness, handle_id c.cached_blink]

/-- The six handle identities of a unit, in the order in which
`led_state_mind2v2_quit` deletes them. -/
def led_state_mind2v2_ids (s : led_state_mind2v2_t) : List (Option Nat) :=
  [handle_id s.cached_red, handle_id s.cached_green, handle_id s.cached_blue,
   handle_id s.cached_red_max, handle_id s.cached_green_max, handle_id s.cached_blue_max]

/-- A control object that asks for configuration-driven probing. -/
def led_control_with_config : led_control_t where
  name        := ""
  use_config  := true
  can_breathe := false
  has_enable  := false
  has_blink   := false

/-- The thirteen handle identities of the dual-unit backend, in the order in
which `leds_state_mind2v2_quit` deletes them. -/
def leds_state_mind2v2_ids (s : leds_state_mind2v2_t) : List (Option Nat) :=
  handle_id s.cached_power :: (led_state_mind2v2_ids (s.led 0) ++ led_state_mind2v2_ids (s.led 1))

/-- The nine handle identities of the triple-channel backend, in the order in
which `led_control_vince_close_cb` deletes them. -/
def vince_channels_ids (ch : vince_channels_t) : List (Option Nat) :=
  led_channel_vince_ids (ch 0) ++ led_channel_vince_ids (ch 1) ++ led_channel_vince_ids (ch 2)

/-- The record of `n` objects being released, those created with the
identities `first`, `first + 1`, ... in this order. -/
def released_from (first n : Nat) : List Event :=
  (List.range n).map (fun k => Event.delete (some (first + k)))

/-- The handle a recorded call was made on. -/
def event_handle : Event → Option Nat
  | Event.create h      => some h
  | Event.open_rw h _ _ => h
  | Event.open_ro h _ _ => h
  | Event.refresh h _   => h
  | Event.set h _       => h
  | Event.close h       => h
  | Event.delete h      => h

/-- The call is an attempt to open a file. -/
def is_open_call : Event → Bool
  | Event.open_rw _ _ _ => true
  | Event.open_ro _ _ _ => true
  | _                   => false

/-- Between the worlds `w0` and `w1` calls were only added to the record, and
each of them was made on a handle listed in `ids`. -/
def calls_on (ids : List (Option Nat)) (w0 w1 : Sysfs) : Prop :=
  ∃ evs, w1.log = w0.log ++ evs ∧ ∀ e ∈ evs, event_handle e ∈ ids

/-- A configuration that has the keys of the prefix `Red`, naming the red LED,
and lacks those of `Green` and `Blue`. -/
def vince_conf_red_only : objconf_t := fun pfix =>
  if pfix = "Red" then
    some { max_brightness := "/sys/class/leds/red/max_brightness"
           brightness     := "/sys/class/leds/red/brightness"
           blink          := "/sys/class/leds/red/blink" }
  else
    none

/-- A device on which every file opens, the max_brightness file holds 0 and
keeps holding 0 whatever is written, and every re-read fails. -/
def sysfs_max_unreadable : Sysfs :=
  { sysfs_all_ok with
    refresh_ok := fun _ _ => false
    kernel     := fun _ _ => 0
    files      := fun _ => 0 }

/-- The files of the red LED. -/
def vince_red_paths : led_paths_vince_t where
  max_brightness := "/sys/class/leds/red/max_brightness"
  brightness     := "/sys/class/leds/red/brightness"
  blink          := "/sys/class/leds/red/blink"

/-- A control object that does not ask for configuration-driven probing. -/
def led_control_no_config : led_control_t where
  name        := ""
  use_config  := false
  can_breathe := false
  has_enable  := false
  has_blink   := false

/-! ## Auxiliary lemmas -/

theorem clamp_bounds (x lo hi : Int) (h : lo ≤ hi) :
    lo ≤ clamp x lo hi ∧ clamp x lo hi ≤ hi := by
  unfold clamp
  split_ifs <;> omega

theorem clamp_mono (x y lo hi : Int) (h : lo ≤ hi) (hxy : x ≤ y) :
    clamp x lo hi ≤ clamp y lo hi := by
  unfold clamp
  split_ifs <;> omega

theorem trans_mono (v1 v2 k : Int) (h1 : 1 ≤ v1) (h12 : v1 ≤ v2) (hk : 1 ≤ k) :
    led_util_trans v1 1 255 1 k ≤ led_util_trans v2 1 255 1 k := by
  unfold led_util_trans
  apply clamp_mono _ _ _ _ hk
  have ha1 : 0 ≤ (v1 - 1) * (k - 1) := mul_nonneg (by omega) (by omega)
  have ha2 : 0 ≤ (v2 - 1) * (k - 1) := mul_nonneg (by omega) (by omega)
  have hle : (v1 - 1) * (k - 1) ≤ (v2 - 1) * (k - 1) :=
    mul_le_mul_of_nonneg_right (by omega) (by omega)
  rw [Int.tdiv_eq_ediv ha1 (by norm_num), Int.tdiv_eq_ediv ha2 (by norm_num)]
  have := Int.ediv_le_ediv (show (0 : Int) < 255 - 1 by norm_num) hle
  omega

theorem wrap32_of_range (x : Int) (h1 : -2147483648 ≤ x) (h2 : x ≤ 2147483647) :
    wrap32 x = x := by
  unfold wrap32
  omega

/-! ## Value translation -/

/-- C1. Dual-unit scaling: for a reported maximum `m > 0` and intensities
`1 ≤ v1 ≤ v2 ≤ 255`, both scaled values lie in `[1, min(m, 63)]` and the
scaled value of `v1` does not exceed that of `v2`; `led_util_trans` is the
clamped linear interpolation. -/
theorem mind2v2_scale_value_range_mono (v1 v2 m : Int) (hm : 0 < m)
    (h1 : 1 ≤ v1) (h12 : v1 ≤ v2) (_h2 : v2 ≤ 255) :
    (1 ≤ led_state_mind2v2_scale_value v1 m ∧
      led_state_mind2v2_scale_value v1 m ≤ min m 63) ∧
    (1 ≤ led_state_mind2v2_scale_value v2 m ∧
      led_state_mind2v2_scale_value v2 m ≤ min m 63) ∧
    led_state_mind2v2_scale_value v1 m ≤ led_state_mind2v2_scale_value v2 m := by
  have e : ∀ v : Int, 1 ≤ v → led_state_mind2v2_scale_value v m
      = led_util_trans v 1 255 1 (min m 63) := by
    intro v hv
    unfold led_state_mind2v2_scale_value
    rw [if_neg (by omega)]
    simp only [MIND2V2_MAX_BRIGHTNESS, MIND2V2_MIN_BRIGHTNESS]
    split_ifs with h
    · rw [min_eq_right (by omega)]
    · rw [min_eq_left (by omega)]
  have hk : (1 : Int) ≤ min m 63 := by
    rcases le_total m 63 with h | h
    · rw [min_eq_left h]; omega
    · rw [min_eq_right h]; omega
  rw [e v1 h1, e v2 (by omega)]
  refine ⟨?_, ?_, trans_mono v1 v2 _ h1 h12 hk⟩
  · exact clamp_bounds _ _ _ hk
  · exact clamp_bounds _ _ _ hk

/-- Instance of C1: intensities 5 and 200 against a reported maximum of 100. -/
theorem mind2v2_scale_value_range_mono_witness :
    (1 ≤ led_state_mind2v2_scale_value 5 100 ∧
      led_state_mind2v2_scale_value 5 100 ≤ min 100 63) ∧
    (1 ≤ led_state_mind2v2_scale_value 200 100 ∧
      led_state_mind2v2_scale_value 200 100 ≤ min 100 63) ∧
    led_state_mind2v2_scale_value 5 100 ≤ led_state_mind2v2_scale_value 200 100 :=
  mind2v2_scale_value_range_mono 5 200 100 (by decide) (by decide) (by decide) (by decide)

/-- C2. Dual-unit scaling: an intensity `v ≤ 0` is scaled to exactly 0,
whatever the reported maximum `m` is. -/
theorem mind2v2_scale_value_off (v m : Int) (hv : v ≤ 0) :
    led_state_mind2v2_scale_value v m = 0 := by
  unfold led_state_mind2v2_scale_value
  rw [if_pos hv]

/-- Instance of C2: intensity -7 against a negative reported maximum. -/
theorem mind2v2_scale_value_off_witness : led_state_mind2v2_scale_value (-7) (-3) = 0 :=
  mind2v2_scale_value_off (-7) (-3) (by decide)

/-- C3, refuted as stated: 134217728 is a 32-bit `int` and at least 16, the
claim gives 255 for it, and the code computes 0 because `134217728 * 16`
wraps to `-2147483648`. -/
theorem vince_rescale_overflow_counterexample :
    INT_MIN ≤ 134217728 ∧ (134217728 : Int) ≤ INT_MAX ∧ (16 : Int) ≤ 134217728 ∧
    clamp (134217728 * 16) 0 255 = 255 ∧
    led_channel_vince_rescale 134217728 = 0 := by
  decide

/-- C3, amended. Triple-channel rescaling: for every `v` whose product `v * 16`
fits a 32-bit `int` (`-134217728 ≤ v ≤ 134217727`) the rescaled value is
`clamp(v * 16, 0, 255)`: 0 for `v ≤ 0`, `16 * v` for `1 ≤ v ≤ 15`, 255 for
`v ≥ 16`. -/
theorem vince_rescale_no_overflow (v : Int) (hlo : -134217728 ≤ v) (hhi : v ≤ 134217727) :
    led_channel_vince_rescale v = clamp (v * 16) 0 255 ∧
    (v ≤ 0 → led_channel_vince_rescale v = 0) ∧
    (1 ≤ v → v ≤ 15 → led_channel_vince_rescale v = 16 * v) ∧
    (16 ≤ v → led_channel_vince_rescale v = 255) := by
  have hw : wrap32 (v * 16) = v * 16 := wrap32_of_range _ (by omega) (by omega)
  have hr : led_channel_vince_rescale v = clamp (v * 16) 0 255 := by
    unfold led_channel_vince_rescale clamp
    simp only [hw]
  refine ⟨hr, ?_, ?_, ?_⟩ <;> rw [hr] <;> unfold clamp
  · intro h; split_ifs <;> omega
  · intro h1 h2; split_ifs <;> omega
  · intro h; split_ifs <;> omega

/-- Instance of amended C3 at `v = 7`. -/
theorem vince_rescale_no_overflow_witness :
    led_channel_vince_rescale 7 = clamp (7 * 16) 0 255 ∧
    ((7 : Int) ≤ 0 → led_channel_vince_rescale 7 = 0) ∧
    ((1 : Int) ≤ 7 → (7 : Int) ≤ 15 → led_channel_vince_rescale 7 = 16 * 7) ∧
    ((16 : Int) ≤ 7 → led_channel_vince_rescale 7 = 255) :=
  vince_rescale_no_overflow 7 (by decide) (by decide)

/-! ## Calls recorded by the value cache -/

theorem sysfsval_set_log (h : Option sysfsval_t) (v : Int) (w : Sysfs) :
    (sysfsval_set h v w).2.log = w.log ++ [Event.set (handle_id h) v] := by
  unfold sysfsval_set
  cases h with
  | none => rfl
  | some s =>
    cases hp : s.path <;> simp [hp, Sysfs.emit, handle_id]

/-- C4. Triple-channel write order: one call of `led_channel_vince_set_value`
leaves the channel in blink mode exactly when it was in blink mode and the
rescaled value is positive, and records exactly two writes: in blink mode
brightness := 0 then blink := 1, otherwise blink := 0 then
brightness := rescaled value.  No other call is made. -/
theorem vince_set_value_write_order (self : led_channel_vince_t) (v : Int) (w : Sysfs) :
    (led_channel_vince_set_value self v w).1.control_blink
      = (self.control_blink && decide (0 < led_channel_vince_rescale v)) ∧
    (led_channel_vince_set_value self v w).2.log = w.log ++
      (if (led_channel_vince_set_value self v w).1.control_blink then
        [Event.set (handle_id self.cached_brightness) 0,
         Event.set (handle_id self.cached_blink) 1]
      else
        [Event.set (handle_id self.cached_blink) 0,
         Event.set (handle_id self.cached_brightness) (led_channel_vince_rescale v)]) := by
  unfold led_channel_vince_set_value
  by_cases hv : led_channel_vince_rescale v ≤ 0
  · have hd : decide (0 < led_channel_vince_rescale v) = false := by
      simp only [decide_eq_false_iff_not]; omega
    simp [hv, hd, sysfsval_set_log]
  · have hd : decide (0 < led_channel_vince_rescale v) = true := by
      simp only [decide_eq_true_eq]; omega
    cases hb : self.control_blink <;> simp [hv, hd, hb, sysfsval_set_log]

/-- C5. Triple-channel backend: when the rescaled value is not positive, a
call of `led_channel_vince_set_value` leaves `control_blink` false and
records the static-mode writes blink := 0 then brightness := 0, whatever
the channel state was, also right after a blink request `(on_ms, off_ms)`. -/
theorem vince_set_value_dark_cancels_blink (self : led_channel_vince_t)
    (on_ms off_ms v : Int) (w : Sysfs) (hv : led_channel_vince_rescale v ≤ 0) :
    (led_channel_vince_set_value self v w).1.control_blink = false ∧
    (led_channel_vince_set_value self v w).2.log = w.log ++
      [Event.set (handle_id self.cached_blink) 0,
       Event.set (handle_id self.cached_brightness) 0] ∧
    (led_channel_vince_set_value
      (led_channel_vince_set_blink self on_ms off_ms) v w).1.control_blink = false ∧
    (led_channel_vince_set_value
      (led_channel_vince_set_blink self on_ms off_ms) v w).2.log = w.log ++
      [Event.set (handle_id self.cached_blink) 0,
       Event.set (handle_id self.cached_brightness) 0] := by
  have h0 : led_channel_vince_rescale v = 0 := by
    have : 0 ≤ led_channel_vince_rescale v := by
      unfold led_channel_vince_rescale
      simp only
      split_ifs <;> omega
    omega
  unfold led_channel_vince_set_value led_channel_vince_set_blink
  simp [h0, sysfsval_set_log]

/-- Instance of C5: a channel that was asked to blink with 500 ms on and
500 ms off is then set to value 0. -/
theorem vince_set_value_dark_cancels_blink_witness :
    led_channel_vince_rescale 0 ≤ 0 ∧
    vince_blinking_channel.control_blink = true ∧
    (led_channel_vince_set_value vince_blinking_channel 0 sysfs_all_ok).1.control_blink
      = false ∧
    (led_channel_vince_set_value vince_blinking_channel 0 sysfs_all_ok).2.log
      = [Event.set (some 2) 0, Event.set (some 1) 0] :=
  ⟨by decide, by decide,
   (vince_set_value_dark_cancels_blink vince_blinking_channel 500 500 0 sysfs_all_ok
      (by decide)).1,
   (vince_set_value_dark_cancels_blink vince_blinking_channel 500 500 0 sysfs_all_ok
      (by decide)).2.1⟩

/-- The six cached colour values of the two units, as `led_state_mind2v2_is_active`
reads them. -/
theorem mind2v2_update_power_scan_eq (self : leds_state_mind2v2_t) :
    leds_state_mind2v2_update_power_scan self MIND2V2_LED_INDICES false = true ↔
      (0 < sysfsval_get (self.led 0).cached_red ∨
       0 < sysfsval_get (self.led 0).cached_green ∨
       0 < sysfsval_get (self.led 0).cached_blue ∨
       0 < sysfsval_get (self.led 1).cached_red ∨
       0 < sysfsval_get (self.led 1).cached_green ∨
       0 < sysfsval_get (self.led 1).cached_blue) := by
  simp only [MIND2V2_LED_INDICES, leds_state_mind2v2_update_power_scan,
    led_state_mind2v2_is_active]
  by_cases h0 : 0 < sysfsval_get (self.led 0).cached_red <;>
  by_cases h1 : 0 < sysfsval_get (self.led 0).cached_green <;>
  by_cases h2 : 0 < sysfsval_get (self.led 0).cached_blue <;>
  simp [h0, h1, h2, or_assoc]

/-- C6. Dual-unit power aggregation: `leds_state_mind2v2_update_power` records
exactly one call, the write of 1 to the power handle, when at least one of
the six cached colour values is positive, and does nothing at all when all
six are `≤ 0`; so it never writes 0.  With unit A at (0,0,0) and unit B at
(0,5,0) the only call recorded is the write of 1 to the power handle. -/
theorem mind2v2_update_power_writes (self : leds_state_mind2v2_t) (w : Sysfs) :
    ((0 < sysfsval_get (self.led 0).cached_red ∨
      0 < sysfsval_get (self.led 0).cached_green ∨
      0 < sysfsval_get (self.led 0).cached_blue ∨
      0 < sysfsval_get (self.led 1).cached_red ∨
      0 < sysfsval_get (self.led 1).cached_green ∨
      0 < sysfsval_get (self.led 1).cached_blue) →
      (leds_state_mind2v2_update_power self w).2.log
        = w.log ++ [Event.set (handle_id self.cached_power) 1]) ∧
    ((sysfsval_get (self.led 0).cached_red ≤ 0 ∧
      sysfsval_get (self.led 0).cached_green ≤ 0 ∧
      sysfsval_get (self.led 0).cached_blue ≤ 0 ∧
      sysfsval_get (self.led 1).cached_red ≤ 0 ∧
      sysfsval_get (self.led 1).cached_green ≤ 0 ∧
      sysfsval_get (self.led 1).cached_blue ≤ 0) →
      leds_state_mind2v2_update_power self w = (self, w)) ∧
    (leds_state_mind2v2_update_power mind2v2_power_example w).2.log
      = w.log ++ [Event.set (some 0) 1] := by
  refine ⟨?_, ?_, ?_⟩
  · intro h
    unfold leds_state_mind2v2_update_power
    simp only [(mind2v2_update_power_scan_eq self).mpr h, if_true, sysfsval_set_log]
  · intro h
    have hn : leds_state_mind2v2_update_power_scan self MIND2V2_LED_INDICES false = false := by
      rw [Bool.eq_false_iff]
      intro hc
      have := (mind2v2_update_power_scan_eq self).mp hc
      omega
    unfold leds_state_mind2v2_update_power
    simp [hn]
  · have hs : leds_state_mind2v2_update_power_scan mind2v2_power_example
        MIND2V2_LED_INDICES false = true := by decide
    unfold leds_state_mind2v2_update_power
    simp only [hs, if_true, sysfsval_set_log]
    rfl

/-- Instance of C6: unit A at (0,0,0) and unit B at (0,5,0), starting from an
empty record of calls. -/
theorem mind2v2_update_power_writes_witness :
    0 < sysfsval_get (mind2v2_power_example.led 1).cached_green ∧
    (leds_state_mind2v2_update_power mind2v2_power_example sysfs_all_ok).2.log
      = [Event.set (some 0) 1] :=
  ⟨by decide,
   (mind2v2_update_power_writes mind2v2_power_example sysfs_all_ok).1
     (Or.inr (Or.inr (Or.inr (Or.inr (Or.inl (by decide))))))⟩

/-! ## Probing of the dual-unit backend -/

theorem sysfsval_open_rw_ok (h : Option sysfsval_t) (p : String) (w : Sysfs)
    (hok : (sysfsval_open_rw h p w).1 = true) :
    open_path (sysfsval_open_rw h p w).2.1 = some p := by
  unfold sysfsval_open_rw at *
  cases h with
  | none => simp at hok
  | some s =>
    by_cases hw : w.rw_ok w.log.length p = true
    · simp [hw, open_path]
    · simp [hw] at hok

theorem sysfsval_open_ro_ok (h : Option sysfsval_t) (p : String) (w : Sysfs)
    (hok : (sysfsval_open_ro h p w).1 = true) :
    open_path (sysfsval_open_ro h p w).2.1 = some p := by
  unfold sysfsval_open_ro at *
  cases h with
  | none => simp at hok
  | some s =>
    by_cases hw : w.ro_ok w.log.length p = true
    · simp [hw, open_path]
    · simp [hw] at hok

theorem is_open_of_open_path (h : Option sysfsval_t) (p : String)
    (hp : open_path h = some p) : is_open h = true := by
  cases h with
  | none => simp [open_path] at hp
  | some s =>
    simp only [open_path] at hp
    simp [is_open, hp]

theorem sysfsval_close_closed (h : Option sysfsval_t) (w : Sysfs) :
    is_open (sysfsval_close h w).1 = false := by
  cases h <;> rfl

theorem led_state_mind2v2_close_closed (s : led_state_mind2v2_t) (w : Sysfs) :
    led_state_mind2v2_all_closed (led_state_mind2v2_close s w).1 = true := by
  simp [led_state_mind2v2_close, led_state_mind2v2_all_closed, sysfsval_close_closed]

theorem led_state_mind2v2_brobe_open_rw_ok (s : led_state_mind2v2_t)
    (p : led_paths_mind2v2_t) (w : Sysfs)
    (hok : (led_state_mind2v2_brobe_open_rw s p w).1 = true) :
    open_path (led_state_mind2v2_brobe_open_rw s p w).2.1.cached_red = some p.red ∧
    open_path (led_state_mind2v2_brobe_open_rw s p w).2.1.cached_green = some p.green ∧
    open_path (led_state_mind2v2_brobe_open_rw s p w).2.1.cached_blue = some p.blue := by
  simp only [led_state_mind2v2_brobe_open_rw] at hok ⊢
  split_ifs at hok ⊢ with h1 h2 h3
  all_goals first
    | (simp at hok; done)
    | exact ⟨sysfsval_open_rw_ok _ _ _ (by simpa using h1),
        sysfsval_open_rw_ok _ _ _ (by simpa using h2),
        sysfsval_open_rw_ok _ _ _ (by simpa using h3)⟩

theorem led_state_mind2v2_brobe_open_ro_frame (s : led_state_mind2v2_t)
    (p : led_paths_mind2v2_t) (w : Sysfs) :
    (led_state_mind2v2_brobe_open_ro s p w).2.1.cached_red = s.cached_red ∧
    (led_state_mind2v2_brobe_open_ro s p w).2.1.cached_green = s.cached_green ∧
    (led_state_mind2v2_brobe_open_ro s p w).2.1.cached_blue = s.cached_blue := by
  simp only [led_state_mind2v2_brobe_open_ro]
  split_ifs <;> exact ⟨rfl, rfl, rfl⟩

theorem led_state_mind2v2_brobe_refresh_frame (s : led_state_mind2v2_t) (w : Sysfs) :
    (led_state_mind2v2_brobe_refresh s w).2.1.cached_red = s.cached_red ∧
    (led_state_mind2v2_brobe_refresh s w).2.1.cached_green = s.cached_green ∧
    (led_state_mind2v2_brobe_refresh s w).2.1.cached_blue = s.cached_blue := by
  simp only [led_state_mind2v2_brobe_refresh]
  split_ifs <;> exact ⟨rfl, rfl, rfl⟩

theorem led_state_mind2v2_brobe_checks_ok (s : led_state_mind2v2_t)
    (p : led_paths_mind2v2_t) (w : Sysfs)
    (hok : (led_state_mind2v2_brobe_checks s p w).1 = true) :
    open_path (led_state_mind2v2_brobe_checks s p w).2.1.cached_red = some p.red ∧
    open_path (led_state_mind2v2_brobe_checks s p w).2.1.cached_green = some p.green ∧
    open_path (led_state_mind2v2_brobe_checks s p w).2.1.cached_blue = some p.blue := by
  simp only [led_state_mind2v2_brobe_checks] at hok ⊢
  split_ifs at hok ⊢ with h1 h2 h3 h4
  · simp only [Bool.not_eq_true, Bool.not_eq_false, Bool.not_eq_true'] at h1
    obtain ⟨a1, a2, a3⟩ := led_state_mind2v2_brobe_open_rw_ok s p w h1
    obtain ⟨b1, b2, b3⟩ := led_state_mind2v2_brobe_open_ro_frame
      (led_state_mind2v2_brobe_open_rw s p w).2.1 p (led_state_mind2v2_brobe_open_rw s p w).2.2
    obtain ⟨c1, c2, c3⟩ := led_state_mind2v2_brobe_refresh_frame
      (led_state_mind2v2_brobe_open_ro (led_state_mind2v2_brobe_open_rw s p w).2.1 p
        (led_state_mind2v2_brobe_open_rw s p w).2.2).2.1
      (led_state_mind2v2_brobe_open_ro (led_state_mind2v2_brobe_open_rw s p w).2.1 p
        (led_state_mind2v2_brobe_open_rw s p w).2.2).2.2
    rw [c1, c2, c3, b1, b2, b3]
    exact ⟨a1, a2, a3⟩

/-- Outcome of the probe of one unit: on failure all six handles are closed,
on success the colour handles are open on the given paths and the
max_brightness handles are closed. -/
theorem led_state_mind2v2_brobe_outcome (s : led_state_mind2v2_t)
    (p : led_paths_mind2v2_t) (w : Sysfs) :
    ((led_state_mind2v2_brobe s p w).1 = false →
      led_state_mind2v2_all_closed (led_state_mind2v2_brobe s p w).2.1 = true) ∧
    ((led_state_mind2v2_brobe s p w).1 = true →
      open_path (led_state_mind2v2_brobe s p w).2.1.cached_red = some p.red ∧
      open_path (led_state_mind2v2_brobe s p w).2.1.cached_green = some p.green ∧
      open_path (led_state_mind2v2_brobe s p w).2.1.cached_blue = some p.blue ∧
      is_open (led_state_mind2v2_brobe s p w).2.1.cached_red_max = false ∧
      is_open (led_state_mind2v2_brobe s p w).2.1.cached_green_max = false ∧
      is_open (led_state_mind2v2_brobe s p w).2.1.cached_blue_max = false) := by
  cases hc : (led_state_mind2v2_brobe_checks s p w).1
  · have hr : (led_state_mind2v2_brobe s p w).1 = false := by
      simp [led_state_mind2v2_brobe, hc]
    refine ⟨fun _ => ?_, fun h => absurd (hr.symm.trans h) (by simp)⟩
    simp only [led_state_mind2v2_brobe, hc, Bool.not_false, if_true]
    exact led_state_mind2v2_close_closed _ _
  · have hr : (led_state_mind2v2_brobe s p w).1 = true := by
      simp [led_state_mind2v2_brobe, hc]
    refine ⟨fun h => absurd (hr.symm.trans h) (by simp), fun _ => ?_⟩
    obtain ⟨a1, a2, a3⟩ := led_state_mind2v2_brobe_checks_ok s p w hc
    simp only [led_state_mind2v2_brobe, hc, Bool.not_true, Bool.false_eq_true, if_false]
    exact ⟨a1, a2, a3, sysfsval_close_closed _ _, sysfsval_close_closed _ _,
           sysfsval_close_closed _ _⟩

theorem leds_state_mind2v2_close_closed (self : leds_state_mind2v2_t) (w : Sysfs) :
    is_open (leds_state_mind2v2_close self w).1.cached_power = false ∧
    ∀ idx, led_state_mind2v2_all_closed ((leds_state_mind2v2_close self w).1.led idx) = true := by
  simp only [leds_state_mind2v2_close, MIND2V2_LED_INDICES, leds_state_mind2v2_close_leds]
  refine ⟨sysfsval_close_closed _ _, ?_⟩
  intro idx
  fin_cases idx <;> simp [Function.update, led_state_mind2v2_close_closed]

theorem leds_state_mind2v2_probe_leds_ok (paths : leds_paths_mind2v2_t)
    (self : leds_state_mind2v2_t) (w : Sysfs)
    (hok : (leds_state_mind2v2_probe_leds paths MIND2V2_LED_INDICES self w).1 = true) :
    (leds_state_mind2v2_probe_leds paths MIND2V2_LED_INDICES self w).2.1.cached_power
      = self.cached_power ∧
    ∀ idx,
      open_path ((leds_state_mind2v2_probe_leds paths MIND2V2_LED_INDICES self w).2.1.led
        idx).cached_red = some (paths.led idx).red ∧
      open_path ((leds_state_mind2v2_probe_leds paths MIND2V2_LED_INDICES self w).2.1.led
        idx).cached_green = some (paths.led idx).green ∧
      open_path ((leds_state_mind2v2_probe_leds paths MIND2V2_LED_INDICES self w).2.1.led
        idx).cached_blue = some (paths.led idx).blue ∧
      is_open ((leds_state_mind2v2_probe_leds paths MIND2V2_LED_INDICES self w).2.1.led
        idx).cached_red_max = false ∧
      is_open ((leds_state_mind2v2_probe_leds paths MIND2V2_LED_INDICES self w).2.1.led
        idx).cached_green_max = false ∧
      is_open ((leds_state_mind2v2_probe_leds paths MIND2V2_LED_INDICES self w).2.1.led
        idx).cached_blue_max = false := by
  simp only [MIND2V2_LED_INDICES, leds_state_mind2v2_probe_leds] at hok ⊢
  have h01 : (1 : Fin MIND2V2_LED_COUNT) ≠ 0 := by decide
  simp only [Function.update_noteq h01] at hok ⊢
  cases h0 : (led_state_mind2v2_brobe (self.led 0) (paths.led 0) w).1
  · simp [h0] at hok
  · simp only [h0, Bool.not_true, Bool.false_eq_true, if_false] at hok ⊢
    cases h1 : (led_state_mind2v2_brobe (self.led 1) (paths.led 1)
        (led_state_mind2v2_brobe (self.led 0) (paths.led 0) w).2.2).1
    · simp [h1] at hok
    · simp only [h1, Bool.not_true, Bool.false_eq_true, if_false]
      refine ⟨trivial, ?_⟩
      intro idx
      fin_cases idx
      · simpa [Function.update] using (led_state_mind2v2_brobe_outcome _ _ _).2 h0
      · simpa [Function.update] using (led_state_mind2v2_brobe_outcome _ _ _).2 h1

/-- Outcome of `leds_state_mind2v2_probe`, with the paths of the open handles. -/
theorem leds_state_mind2v2_probe_outcome (self : leds_state_mind2v2_t)
    (paths : leds_paths_mind2v2_t) (w : Sysfs) :
    ((leds_state_mind2v2_probe self paths w).1 = false →
      is_open (leds_state_mind2v2_probe self paths w).2.1.cached_power = false ∧
      ∀ idx, led_state_mind2v2_all_closed
        ((leds_state_mind2v2_probe self paths w).2.1.led idx) = true) ∧
    ((leds_state_mind2v2_probe self paths w).1 = true →
      open_path (leds_state_mind2v2_probe self paths w).2.1.cached_power = some paths.power ∧
      ∀ idx,
        open_path ((leds_state_mind2v2_probe self paths w).2.1.led idx).cached_red
          = some (paths.led idx).red ∧
        open_path ((leds_state_mind2v2_probe self paths w).2.1.led idx).cached_green
          = some (paths.led idx).green ∧
        open_path ((leds_state_mind2v2_probe self paths w).2.1.led idx).cached_blue
          = some (paths.led idx).blue ∧
        is_open ((leds_state_mind2v2_probe self paths w).2.1.led idx).cached_red_max = false ∧
        is_open ((leds_state_mind2v2_probe self paths w).2.1.led idx).cached_green_max = false ∧
        is_open ((leds_state_mind2v2_probe self paths w).2.1.led idx).cached_blue_max
          = false) := by
  simp only [leds_state_mind2v2_probe]
  cases hp : (sysfsval_open_rw self.cached_power paths.power w).1
  · simp only [Bool.not_false, if_true]
    refine ⟨fun _ => leds_state_mind2v2_close_closed _ _, fun h => by simp at h⟩
  · simp only [Bool.not_true, Bool.false_eq_true, if_false]
    cases hl : (leds_state_mind2v2_probe_leds paths MIND2V2_LED_INDICES
        { self with cached_power := (sysfsval_open_rw self.cached_power paths.power w).2.1 }
        (sysfsval_open_rw self.cached_power paths.power w).2.2).1
    · simp only [Bool.not_false, if_true]
      refine ⟨fun _ => leds_state_mind2v2_close_closed _ _, fun h => by simp at h⟩
    · simp only [Bool.not_true, Bool.false_eq_true, if_false]
      refine ⟨fun h => by simp [hl] at h, fun _ => ?_⟩
      obtain ⟨hpow, hled⟩ := leds_state_mind2v2_probe_leds_ok paths _ _ hl
      refine ⟨?_, hled⟩
      rw [hpow]
      exact sysfsval_open_rw_ok _ _ _ hp

/-- C7. Dual-unit probe is all-or-nothing: when `leds_state_mind2v2_probe`
returns false none of the 13 handles is open, whatever the individual open
and refresh operations did; when it returns true the power handle and the
six colour handles are open and the six max_brightness handles are closed. -/
theorem mind2v2_probe_all_or_nothing (self : leds_state_mind2v2_t)
    (paths : leds_paths_mind2v2_t) (w : Sysfs) :
    ((leds_state_mind2v2_probe self paths w).1 = false →
      is_open (leds_state_mind2v2_probe self paths w).2.1.cached_power = false ∧
      ∀ idx, led_state_mind2v2_all_closed
        ((leds_state_mind2v2_probe self paths w).2.1.led idx) = true) ∧
    ((leds_state_mind2v2_probe self paths w).1 = true →
      is_open (leds_state_mind2v2_probe self paths w).2.1.cached_power = true ∧
      ∀ idx, led_state_mind2v2_active
        ((leds_state_mind2v2_probe self paths w).2.1.led idx) = true) := by
  refine ⟨(leds_state_mind2v2_probe_outcome self paths w).1, fun h => ?_⟩
  obtain ⟨hpow, hled⟩ := (leds_state_mind2v2_probe_outcome self paths w).2 h
  refine ⟨is_open_of_open_path _ _ hpow, fun idx => ?_⟩
  obtain ⟨a1, a2, a3, a4, a5, a6⟩ := hled idx
  simp [led_state_mind2v2_active, is_open_of_open_path _ _ a1, is_open_of_open_path _ _ a2,
    is_open_of_open_path _ _ a3, a4, a5, a6]

/-- Instance of C7: the red file of the outer unit does not open, so the probe
fails after the inner unit had probed successfully, and nothing stays open;
with every file present the probe succeeds. -/
theorem mind2v2_probe_all_or_nothing_witness :
    ((leds_state_mind2v2_probe (mind2v2_fresh sysfs_no_outer_red).1 mind2v2_static_paths
        (mind2v2_fresh sysfs_no_outer_red).2).1 = false ∧
      (led_state_mind2v2_brobe ((mind2v2_fresh sysfs_no_outer_red).1.led 0)
        (mind2v2_static_paths.led 0) (mind2v2_fresh sysfs_no_outer_red).2).1 = true ∧
      is_open (leds_state_mind2v2_probe (mind2v2_fresh sysfs_no_outer_red).1
        mind2v2_static_paths (mind2v2_fresh sysfs_no_outer_red).2).2.1.cached_power = false ∧
      ∀ idx, led_state_mind2v2_all_closed
        ((leds_state_mind2v2_probe (mind2v2_fresh sysfs_no_outer_red).1 mind2v2_static_paths
          (mind2v2_fresh sysfs_no_outer_red).2).2.1.led idx) = true) ∧
    ((leds_state_mind2v2_probe (mind2v2_fresh sysfs_all_ok).1 mind2v2_static_paths
        (mind2v2_fresh sysfs_all_ok).2).1 = true ∧
      is_open (leds_state_mind2v2_probe (mind2v2_fresh sysfs_all_ok).1
        mind2v2_static_paths (mind2v2_fresh sysfs_all_ok).2).2.1.cached_power = true ∧
      ∀ idx, led_state_mind2v2_active
        ((leds_state_mind2v2_probe (mind2v2_fresh sysfs_all_ok).1 mind2v2_static_paths
          (mind2v2_fresh sysfs_all_ok).2).2.1.led idx) = true) :=
  ⟨⟨by decide, by decide,
    (mind2v2_probe_all_or_nothing (mind2v2_fresh sysfs_no_outer_red).1 mind2v2_static_paths
      (mind2v2_fresh sysfs_no_outer_red).2).1 (by decide)⟩,
   ⟨by decide,
    (mind2v2_probe_all_or_nothing (mind2v2_fresh sysfs_all_ok).1 mind2v2_static_paths
      (mind2v2_fresh sysfs_all_ok).2).2 (by decide)⟩⟩

/-! ## Probing of the triple-channel backend -/

/-- C8, failing input.  The configuration names the red LED for `Red` and a
missing LED for `Green`: `led_control_vince_dynamic_probe` rejects the
candidate because the probe of channel 1 fails, and returns with the blink
and brightness handles of channel 0 still open on the candidate's files. -/
theorem vince_dynamic_probe_leaves_channel_open :
    (led_control_vince_dynamic_probe vince_conf_rgb (vince_fresh sysfs_red_only).1
      (vince_fresh sysfs_red_only).2).1 = false ∧
    open_path ((led_control_vince_dynamic_probe vince_conf_rgb (vince_fresh sysfs_red_only).1
      (vince_fresh sysfs_red_only).2).2.1 0).cached_blink
      = some "/sys/class/leds/red/blink" ∧
    open_path ((led_control_vince_dynamic_probe vince_conf_rgb (vince_fresh sysfs_red_only).1
      (vince_fresh sysfs_red_only).2).2.1 0).cached_brightness
      = some "/sys/class/leds/red/brightness" := by
  decide

theorem handle_id_open_rw (h : Option sysfsval_t) (p : String) (w : Sysfs) :
    handle_id (sysfsval_open_rw h p w).2.1 = handle_id h := by
  unfold sysfsval_open_rw
  cases h with
  | none => rfl
  | some s => by_cases hw : w.rw_ok w.log.length p = true <;> simp [hw, handle_id]

theorem handle_id_open_ro (h : Option sysfsval_t) (p : String) (w : Sysfs) :
    handle_id (sysfsval_open_ro h p w).2.1 = handle_id h := by
  unfold sysfsval_open_ro
  cases h with
  | none => rfl
  | some s => by_cases hw : w.ro_ok w.log.length p = true <;> simp [hw, handle_id]

theorem handle_id_refresh (h : Option sysfsval_t) (w : Sysfs) :
    handle_id (sysfsval_refresh h w).2.1 = handle_id h := by
  unfold sysfsval_refresh
  cases h with
  | none => rfl
  | some s =>
    cases hp : s.path with
    | none => simp [hp, handle_id]
    | some q =>
      by_cases hw : w.refresh_ok w.log.length q = true <;> simp [hp, hw, handle_id]

theorem handle_id_set (h : Option sysfsval_t) (v : Int) (w : Sysfs) :
    handle_id (sysfsval_set h v w).1 = handle_id h := by
  unfold sysfsval_set
  cases h with
  | none => rfl
  | some s => cases hp : s.path <;> simp [hp, handle_id]

theorem handle_id_close (h : Option sysfsval_t) (w : Sysfs) :
    handle_id (sysfsval_close h w).1 = handle_id h := by
  cases h <;> rfl

theorem led_channel_vince_probe_checks_ok (s : led_channel_vince_t) (p : led_paths_vince_t)
    (w : Sysfs) (hok : (led_channel_vince_probe_checks s p w).1 = true) :
    open_path (led_channel_vince_probe_checks s p w).2.1.cached_blink = some p.blink ∧
    open_path (led_channel_vince_probe_checks s p w).2.1.cached_brightness
      = some p.brightness := by
  simp only [led_channel_vince_probe_checks] at hok ⊢
  split_ifs at hok ⊢ with h1 h2 h3 h4
  all_goals first
    | (simp at hok; done)
    | exact ⟨sysfsval_open_rw_ok _ _ _ (by simpa using h1),
        sysfsval_open_rw_ok _ _ _ (by simpa using h4)⟩

/-- Outcome of the probe of one channel: on success the blink and brightness
handles are open on the given paths, on failure they are closed; the
max_brightness handle is closed either way. -/
theorem led_channel_vince_probe_outcome (s : led_channel_vince_t) (p : led_paths_vince_t)
    (w : Sysfs) :
    is_open (led_channel_vince_probe s p w).2.1.cached_max_brightness = false ∧
    ((led_channel_vince_probe s p w).1 = true →
      open_path (led_channel_vince_probe s p w).2.1.cached_blink = some p.blink ∧
      open_path (led_channel_vince_probe s p w).2.1.cached_brightness = some p.brightness) ∧
    ((led_channel_vince_probe s p w).1 = false →
      is_open (led_channel_vince_probe s p w).2.1.cached_blink = false ∧
      is_open (led_channel_vince_probe s p w).2.1.cached_brightness = false) := by
  cases hc : (led_channel_vince_probe_checks s p w).1
  · have hr : (led_channel_vince_probe s p w).1 = false := by
      simp [led_channel_vince_probe, hc]
    refine ⟨?_, fun h => absurd (hr.symm.trans h) (by simp), fun _ => ?_⟩
    · simp only [led_channel_vince_probe, hc, Bool.not_false, if_true]
      exact sysfsval_close_closed _ _
    · simp only [led_channel_vince_probe, hc, Bool.not_false, if_true]
      exact ⟨sysfsval_close_closed _ _, sysfsval_close_closed _ _⟩
  · have hr : (led_channel_vince_probe s p w).1 = true := by
      simp [led_channel_vince_probe, hc]
    refine ⟨?_, fun _ => ?_, fun h => absurd (hr.symm.trans h) (by simp)⟩
    · simp only [led_channel_vince_probe, hc, Bool.not_true, Bool.false_eq_true, if_false]
      exact sysfsval_close_closed _ _
    · simp only [led_channel_vince_probe, hc, Bool.not_true, Bool.false_eq_true, if_false]
      exact led_channel_vince_probe_checks_ok s p w hc

theorem led_channel_vince_probe_checks_ids (s : led_channel_vince_t) (p : led_paths_vince_t)
    (w : Sysfs) :
    led_channel_vince_ids (led_channel_vince_probe_checks s p w).2.1
      = led_channel_vince_ids s := by
  simp only [led_channel_vince_probe_checks, led_channel_vince_ids]
  split_ifs <;>
    simp only [handle_id_open_rw, handle_id_open_ro, handle_id_refresh, handle_id_set]

theorem led_channel_vince_probe_ids (s : led_channel_vince_t) (p : led_paths_vince_t)
    (w : Sysfs) :
    led_channel_vince_ids (led_channel_vince_probe s p w).2.1 = led_channel_vince_ids s := by
  have h := led_channel_vince_probe_checks_ids s p w
  simp only [led_channel_vince_ids, List.cons.injEq, and_true] at h
  obtain ⟨h1, h2, h3⟩ := h
  simp only [led_channel_vince_probe, led_channel_vince_ids]
  split_ifs <;> simp only [handle_id_close, h1, h2, h3]

theorem vince_update_probe_ids (ch : vince_channels_t) (j : Fin VINCE_CHANNELS)
    (p : led_paths_vince_t) (w : Sysfs) (i : Fin VINCE_CHANNELS) :
    led_channel_vince_ids (Function.update ch j (led_channel_vince_probe (ch j) p w).2.1 i)
      = led_channel_vince_ids (ch i) := by
  by_cases h : i = j
  · subst h
    simp [led_channel_vince_probe_ids]
  · simp [Function.update_noteq h]

theorem led_control_vince_static_probe_candidate_ids (ch : vince_channels_t)
    (cand : Fin VINCE_CHANNELS → led_paths_vince_t) (w : Sysfs) (i : Fin VINCE_CHANNELS) :
    led_channel_vince_ids ((led_control_vince_static_probe_candidate ch cand w).2.1 i)
      = led_channel_vince_ids (ch i) := by
  simp only [led_control_vince_static_probe_candidate]
  split_ifs <;> simp only [vince_update_probe_ids]

theorem led_control_vince_static_probe_loop_ids
    (l : List (Fin VINCE_CHANNELS → led_paths_vince_t)) :
    ∀ (ch : vince_channels_t) (w : Sysfs) (i : Fin VINCE_CHANNELS),
      led_channel_vince_ids ((led_control_vince_static_probe_loop l ch w).2.1 i)
        = led_channel_vince_ids (ch i) := by
  induction l with
  | nil => intro ch w i; rfl
  | cons cand rest ih =>
    intro ch w i
    simp only [led_control_vince_static_probe_loop]
    split_ifs
    · exact led_control_vince_static_probe_candidate_ids ch cand w i
    · rw [ih]
      exact led_control_vince_static_probe_candidate_ids ch cand w i

theorem led_control_vince_dynamic_probe_loop_ids (conf : objconf_t)
    (l : List (Fin VINCE_CHANNELS)) :
    ∀ (ch : vince_channels_t) (w : Sysfs) (i : Fin VINCE_CHANNELS),
      led_channel_vince_ids ((led_control_vince_dynamic_probe_loop conf l ch w).2.1 i)
        = led_channel_vince_ids (ch i) := by
  induction l with
  | nil => intro ch w i; rfl
  | cons j rest ih =>
    intro ch w i
    simp only [led_control_vince_dynamic_probe_loop]
    cases hc : conf (vince_pfix j) with
    | none => rfl
    | some paths =>
      simp only
      split_ifs
      · exact vince_update_probe_ids ch j paths w i
      · rw [ih]
        exact vince_update_probe_ids ch j paths w i

theorem led_control_vince_static_probe_candidate_ok (ch : vince_channels_t)
    (cand : Fin VINCE_CHANNELS → led_paths_vince_t) (w : Sysfs)
    (hok : (led_control_vince_static_probe_candidate ch cand w).1 = true)
    (i : Fin VINCE_CHANNELS) :
    open_path ((led_control_vince_static_probe_candidate ch cand w).2.1 i).cached_blink
      = some (cand i).blink ∧
    open_path ((led_control_vince_static_probe_candidate ch cand w).2.1 i).cached_brightness
      = some (cand i).brightness ∧
    is_open ((led_control_vince_static_probe_candidate ch cand w).2.1 i).cached_max_brightness
      = false := by
  have h10 : (1 : Fin VINCE_CHANNELS) ≠ 0 := by decide
  have h20 : (2 : Fin VINCE_CHANNELS) ≠ 0 := by decide
  have h21 : (2 : Fin VINCE_CHANNELS) ≠ 1 := by decide
  simp only [led_control_vince_static_probe_candidate, Function.update_noteq h10,
    Function.update_noteq h20, Function.update_noteq h21] at hok ⊢
  cases h0 : (led_channel_vince_probe (ch 0) (cand 0) w).1
  · simp [h0] at hok
  · simp only [h0, Bool.not_true, Bool.false_eq_true, if_false] at hok ⊢
    cases h1 : (led_channel_vince_probe (ch 1) (cand 1)
        (led_channel_vince_probe (ch 0) (cand 0) w).2.2).1
    · simp [h1] at hok
    · simp only [h1, Bool.not_true, Bool.false_eq_true, if_false] at hok ⊢
      cases h2 : (led_channel_vince_probe (ch 2) (cand 2)
          (led_channel_vince_probe (ch 1) (cand 1)
            (led_channel_vince_probe (ch 0) (cand 0) w).2.2).2.2).1
      · simp [h2] at hok
      · simp only [h2, Bool.not_true, Bool.false_eq_true, if_false]
        fin_cases i
        · have o := led_channel_vince_probe_outcome (ch 0) (cand 0) w
          simpa [Function.update] using ⟨(o.2.1 h0).1, (o.2.1 h0).2, o.1⟩
        · have o := led_channel_vince_probe_outcome (ch 1) (cand 1)
            (led_channel_vince_probe (ch 0) (cand 0) w).2.2
          simpa [Function.update] using ⟨(o.2.1 h1).1, (o.2.1 h1).2, o.1⟩
        · have o := led_channel_vince_probe_outcome (ch 2) (cand 2)
            (led_channel_vince_probe (ch 1) (cand 1)
              (led_channel_vince_probe (ch 0) (cand 0) w).2.2).2.2
          simpa [Function.update] using ⟨(o.2.1 h2).1, (o.2.1 h2).2, o.1⟩

/-- A successful hardcoded probe leaves every channel open on the hardcoded
files, whatever state it started from. -/
theorem led_control_vince_static_probe_ok (ch : vince_channels_t) (w : Sysfs)
    (hok : (led_control_vince_static_probe ch w).1 = true) (i : Fin VINCE_CHANNELS) :
    open_path ((led_control_vince_static_probe ch w).2.1 i).cached_blink
      = some "/sys/class/leds/red/blink" ∧
    open_path ((led_control_vince_static_probe ch w).2.1 i).cached_brightness
      = some "/sys/class/leds/red/brightness" ∧
    is_open ((led_control_vince_static_probe ch w).2.1 i).cached_max_brightness = false := by
  simp only [led_control_vince_static_probe, vince_paths,
    led_control_vince_static_probe_loop] at hok ⊢
  split_ifs at hok ⊢ with hc
  exact led_control_vince_static_probe_candidate_ok ch _ w hc i

/-! ## Teardown -/

theorem led_control_vince_probe_init_ids (ch : vince_channels_t) (w : Sysfs) :
    vince_channels_ids (led_control_vince_probe_init ch w).1
      = (List.range 9).map (fun k => some (w.next_id + k)) := by
  simp [vince_channels_ids, led_channel_vince_ids, led_control_vince_probe_init,
    led_channel_vince_init, sysfsval_create, Sysfs.emit, handle_id, Function.update,
    List.range_succ, Nat.add_assoc]

theorem led_control_vince_close_cb_log (ch : vince_channels_t) (w : Sysfs) :
    (led_control_vince_close_cb ch w).2
      = { w with log := w.log ++ (vince_channels_ids ch).map Event.delete } := by
  simp [led_control_vince_close_cb, led_channel_vince_close, sysfsval_delete, Sysfs.emit,
    vince_channels_ids, led_channel_vince_ids, Function.update]

theorem led_control_vince_close_cb_ids (ch : vince_channels_t) (w : Sysfs) :
    vince_channels_ids (led_control_vince_close_cb ch w).1 = List.replicate 9 none := by
  simp [led_control_vince_close_cb, led_channel_vince_close, vince_channels_ids,
    led_channel_vince_ids, Function.update, handle_id, List.replicate]

theorem led_control_vince_close_cb_twice (ch : vince_channels_t) (w w2 : Sysfs) :
    (led_control_vince_close_cb (led_control_vince_close_cb ch w).1 w2).1
      = (led_control_vince_close_cb ch w).1 := by
  funext i
  have hi : i = 0 ∨ i = 1 ∨ i = 2 := by revert i; decide
  rcases hi with h | h | h <;> subst h <;>
    simp [led_control_vince_close_cb, led_channel_vince_close, Function.update]

theorem led_control_vince_static_probe_ids (ch : vince_channels_t) (w : Sysfs) :
    vince_channels_ids (led_control_vince_static_probe ch w).2.1 = vince_channels_ids ch := by
  simp only [vince_channels_ids, led_control_vince_static_probe,
    led_control_vince_static_probe_loop_ids]

theorem led_control_vince_dynamic_probe_ids (conf : objconf_t) (ch : vince_channels_t)
    (w : Sysfs) :
    vince_channels_ids (led_control_vince_dynamic_probe conf ch w).2.1
      = vince_channels_ids ch := by
  simp only [vince_channels_ids, led_control_vince_dynamic_probe,
    led_control_vince_dynamic_probe_loop_ids]

/-- A successful `led_control_vince_probe` leaves the nine handles it created
at its start in the three channels. -/
theorem led_control_vince_probe_ok_ids (conf : objconf_t) (self : led_control_t)
    (ch : vince_channels_t) (w : Sysfs)
    (hok : (led_control_vince_probe conf self ch w).1 = true) :
    vince_channels_ids (led_control_vince_probe conf self ch w).2.2.1
      = (List.range 9).map (fun k => some (w.next_id + k)) := by
  rw [← led_control_vince_probe_init_ids ch w]
  simp only [led_control_vince_probe] at hok ⊢
  cases hu : self.use_config
  · simp only [hu, Bool.false_eq_true, if_false, Bool.not_false, if_true] at hok ⊢
    cases hs : (led_control_vince_static_probe (led_control_vince_probe_init ch w).1
        (led_control_vince_probe_init ch w).2).1
    · simp [hs] at hok
    · simp only [hs, Bool.not_true, Bool.false_eq_true, if_false]
      exact led_control_vince_static_probe_ids _ _
  · simp only [hu, if_true] at hok ⊢
    cases hd : (led_control_vince_dynamic_probe conf (led_control_vince_probe_init ch w).1
        (led_control_vince_probe_init ch w).2).1
    · simp only [hd, Bool.not_false, if_true] at hok ⊢
      cases hs : (led_control_vince_static_probe
          (led_control_vince_dynamic_probe conf (led_control_vince_probe_init ch w).1
            (led_control_vince_probe_init ch w).2).2.1
          (led_control_vince_dynamic_probe conf (led_control_vince_probe_init ch w).1
            (led_control_vince_probe_init ch w).2).2.2).1
      · simp [hs] at hok
      · simp only [hs, Bool.not_true, Bool.false_eq_true, if_false]
        rw [led_control_vince_static_probe_ids, led_control_vince_dynamic_probe_ids]
    · simp only [hd, Bool.not_true, Bool.false_eq_true, if_false]
      exact led_control_vince_dynamic_probe_ids _ _ _

theorem led_state_mind2v2_brobe_open_rw_ids (s : led_state_mind2v2_t)
    (p : led_paths_mind2v2_t) (w : Sysfs) :
    led_state_mind2v2_ids (led_state_mind2v2_brobe_open_rw s p w).2.1
      = led_state_mind2v2_ids s := by
  simp only [led_state_mind2v2_brobe_open_rw, led_state_mind2v2_ids]
  split_ifs <;> simp only [handle_id_open_rw]

theorem led_state_mind2v2_brobe_open_ro_ids (s : led_state_mind2v2_t)
    (p : led_paths_mind2v2_t) (w : Sysfs) :
    led_state_mind2v2_ids (led_state_mind2v2_brobe_open_ro s p w).2.1
      = led_state_mind2v2_ids s := by
  simp only [led_state_mind2v2_brobe_open_ro, led_state_mind2v2_ids]
  split_ifs <;> simp only [handle_id_open_ro]

theorem led_state_mind2v2_brobe_refresh_ids (s : led_state_mind2v2_t) (w : Sysfs) :
    led_state_mind2v2_ids (led_state_mind2v2_brobe_refresh s w).2.1
      = led_state_mind2v2_ids s := by
  simp only [led_state_mind2v2_brobe_refresh, led_state_mind2v2_ids]
  split_ifs <;> simp only [handle_id_refresh]

theorem led_state_mind2v2_brobe_checks_ids (s : led_state_mind2v2_t)
    (p : led_paths_mind2v2_t) (w : Sysfs) :
    led_state_mind2v2_ids (led_state_mind2v2_brobe_checks s p w).2.1
      = led_state_mind2v2_ids s := by
  simp only [led_state_mind2v2_brobe_checks]
  split_ifs <;>
    simp only [led_state_mind2v2_brobe_refresh_ids, led_state_mind2v2_brobe_open_ro_ids,
      led_state_mind2v2_brobe_open_rw_ids]

theorem led_state_mind2v2_close_ids (s : led_state_mind2v2_t) (w : Sysfs) :
    led_state_mind2v2_ids (led_state_mind2v2_close s w).1 = led_state_mind2v2_ids s := by
  simp only [led_state_mind2v2_close, led_state_mind2v2_ids, handle_id_close]

theorem led_state_mind2v2_brobe_ids (s : led_state_mind2v2_t)
    (p : led_paths_mind2v2_t) (w : Sysfs) :
    led_state_mind2v2_ids (led_state_mind2v2_brobe s p w).2.1 = led_state_mind2v2_ids s := by
  have h := led_state_mind2v2_brobe_checks_ids s p w
  simp only [led_state_mind2v2_brobe]
  split_ifs
  · rw [led_state_mind2v2_close_ids]
    simp only [led_state_mind2v2_ids, handle_id_close] at h ⊢
    exact h
  · simp only [led_state_mind2v2_ids, handle_id_close] at h ⊢
    exact h

theorem mind2v2_update_brobe_ids (led : Fin MIND2V2_LED_COUNT → led_state_mind2v2_t)
    (j : Fin MIND2V2_LED_COUNT) (p : led_paths_mind2v2_t) (w : Sysfs)
    (i : Fin MIND2V2_LED_COUNT) :
    led_state_mind2v2_ids (Function.update led j (led_state_mind2v2_brobe (led j) p w).2.1 i)
      = led_state_mind2v2_ids (led i) := by
  by_cases h : i = j
  · subst h
    simp [led_state_mind2v2_brobe_ids]
  · simp [Function.update_noteq h]

theorem mind2v2_update_close_ids (led : Fin MIND2V2_LED_COUNT → led_state_mind2v2_t)
    (j : Fin MIND2V2_LED_COUNT) (w : Sysfs) (i : Fin MIND2V2_LED_COUNT) :
    led_state_mind2v2_ids (Function.update led j (led_state_mind2v2_close (led j) w).1 i)
      = led_state_mind2v2_ids (led i) := by
  by_cases h : i = j
  · subst h
    simp [led_state_mind2v2_close_ids]
  · simp [Function.update_noteq h]

theorem leds_state_mind2v2_probe_leds_ids (paths : leds_paths_mind2v2_t)
    (l : List (Fin MIND2V2_LED_COUNT)) :
    ∀ (self : leds_state_mind2v2_t) (w : Sysfs),
      leds_state_mind2v2_ids (leds_state_mind2v2_probe_leds paths l self w).2.1
        = leds_state_mind2v2_ids self := by
  induction l with
  | nil => intro self w; rfl
  | cons j rest ih =>
    intro self w
    simp only [leds_state_mind2v2_probe_leds]
    split_ifs
    · simp only [leds_state_mind2v2_ids, mind2v2_update_brobe_ids]
    · rw [ih]
      simp only [leds_state_mind2v2_ids, mind2v2_update_brobe_ids]

theorem leds_state_mind2v2_close_leds_ids (l : List (Fin MIND2V2_LED_COUNT)) :
    ∀ (self : leds_state_mind2v2_t) (w : Sysfs),
      leds_state_mind2v2_ids (leds_state_mind2v2_close_leds l self w).1
        = leds_state_mind2v2_ids self := by
  induction l with
  | nil => intro self w; rfl
  | cons j rest ih =>
    intro self w
    simp only [leds_state_mind2v2_close_leds]
    rw [ih]
    simp only [leds_state_mind2v2_ids, mind2v2_update_close_ids]

theorem leds_state_mind2v2_close_ids (self : leds_state_mind2v2_t) (w : Sysfs) :
    leds_state_mind2v2_ids (leds_state_mind2v2_close self w).1
      = leds_state_mind2v2_ids self := by
  simp only [leds_state_mind2v2_close]
  rw [leds_state_mind2v2_close_leds_ids]
  simp only [leds_state_mind2v2_ids, handle_id_close]

theorem leds_state_mind2v2_probe_ids (self : leds_state_mind2v2_t)
    (paths : leds_paths_mind2v2_t) (w : Sysfs) :
    leds_state_mind2v2_ids (leds_state_mind2v2_probe self paths w).2.1
      = leds_state_mind2v2_ids self := by
  simp only [leds_state_mind2v2_probe]
  split_ifs
  all_goals
    try rw [leds_state_mind2v2_close_ids]
    try rw [leds_state_mind2v2_probe_leds_ids]
    simp only [leds_state_mind2v2_ids, handle_id_open_rw]

theorem leds_state_mind2v2_init_ids (self : leds_state_mind2v2_t) (w : Sysfs) :
    leds_state_mind2v2_ids (leds_state_mind2v2_init self w).1
      = (List.range 13).map (fun k => some (w.next_id + k)) := by
  simp [leds_state_mind2v2_ids, led_state_mind2v2_ids, leds_state_mind2v2_init,
    leds_state_mind2v2_init_leds, MIND2V2_LED_INDICES, led_state_mind2v2_init,
    sysfsval_create, Sysfs.emit, handle_id, Function.update, List.range_succ, Nat.add_assoc]

theorem leds_state_mind2v2_quit_log (self : leds_state_mind2v2_t) (w : Sysfs) :
    (leds_state_mind2v2_quit self w).2
      = { w with log := w.log ++ (leds_state_mind2v2_ids self).map Event.delete } := by
  simp [leds_state_mind2v2_quit, leds_state_mind2v2_quit_leds, MIND2V2_LED_INDICES,
    led_state_mind2v2_quit, sysfsval_delete_at, sysfsval_delete, Sysfs.emit,
    leds_state_mind2v2_ids, led_state_mind2v2_ids, Function.update]

theorem leds_state_mind2v2_quit_state (self : leds_state_mind2v2_t) (w : Sysfs) :
    (leds_state_mind2v2_quit self w).1 = leds_state_mind2v2_zero := by
  simp only [leds_state_mind2v2_quit, leds_state_mind2v2_quit_leds, MIND2V2_LED_INDICES,
    led_state_mind2v2_quit, sysfsval_delete_at, leds_state_mind2v2_zero]
  congr 1
  funext i
  have hi : i = 0 ∨ i = 1 := by revert i; decide
  rcases hi with h | h <;> subst h <;> simp [Function.update]

/-- A successful `led_control_mind2v2_probe` leaves the thirteen handles it
created at its start in the state. -/
theorem led_control_mind2v2_probe_ok_ids (self : led_control_t)
    (state : leds_state_mind2v2_t) (w : Sysfs)
    (hok : (led_control_mind2v2_probe self state w).1 = true) :
    leds_state_mind2v2_ids (led_control_mind2v2_probe self state w).2.2.1
      = (List.range 13).map (fun k => some (w.next_id + k)) := by
  rw [← leds_state_mind2v2_init_ids state w]
  simp only [led_control_mind2v2_probe, led_control_mind2v2_dynamic_probe, ite_self,
    Bool.not_false, if_true, led_control_mind2v2_static_probe] at hok ⊢
  cases hs : (leds_state_mind2v2_probe (leds_state_mind2v2_init state w).1
      mind2v2_static_paths (leds_state_mind2v2_init state w).2).1
  · simp [hs] at hok
  · simp only [hs, Bool.not_true, Bool.false_eq_true, if_false]
    exact leds_state_mind2v2_probe_ids _ _ _

theorem map_delete_released (first n : Nat) :
    ((List.range n).map (fun k => some (first + k))).map Event.delete
      = released_from first n := by
  simp [released_from, List.map_map, Function.comp_def]

/-- C9. Idempotent close, both backends.  After a successful probe (which
created its handles with the identities `w.next_id`, `w.next_id + 1`, ...)
the first call of the close callback releases each of the 9 (vince) or 13
(mind2v2) handles exactly once and does nothing else; it leaves every
handle reference null; a second call releases nothing, its deletions all
go through null references, and it leaves the backend state as the first
call left it. -/
theorem close_cb_idempotent (conf : objconf_t) (ctl : led_control_t)
    (channel : vince_channels_t) (state : leds_state_mind2v2_t) (w : Sysfs) :
    (∀ r, r = led_control_vince_probe conf ctl channel w → r.1 = true →
      ∀ c1, c1 = led_control_vince_close_cb r.2.2.1 r.2.2.2 →
      ∀ c2, c2 = led_control_vince_close_cb c1.1 c1.2 →
        c1.2 = { r.2.2.2 with log := r.2.2.2.log ++ released_from w.next_id 9 } ∧
        vince_channels_ids c1.1 = List.replicate 9 none ∧
        c2.2 = { c1.2 with log := c1.2.log ++ List.replicate 9 (Event.delete none) } ∧
        c2.1 = c1.1) ∧
    (∀ r, r = led_control_mind2v2_probe ctl state w → r.1 = true →
      ∀ c1, c1 = led_control_mind2v2_close_cb r.2.2.1 r.2.2.2 →
      ∀ c2, c2 = led_control_mind2v2_close_cb c1.1 c1.2 →
        c1.2 = { r.2.2.2 with log := r.2.2.2.log ++ released_from w.next_id 13 } ∧
        leds_state_mind2v2_ids c1.1 = List.replicate 13 none ∧
        c2.2 = { c1.2 with log := c1.2.log ++ List.replicate 13 (Event.delete none) } ∧
        c2.1 = c1.1) := by
  constructor
  · intro r hr hok c1 hc1 c2 hc2
    subst hr
    have hids := led_control_vince_probe_ok_ids conf ctl channel w hok
    have hnull := led_control_vince_close_cb_ids
      (led_control_vince_probe conf ctl channel w).2.2.1
      (led_control_vince_probe conf ctl channel w).2.2.2
    subst hc1
    subst hc2
    refine ⟨?_, hnull, ?_, led_control_vince_close_cb_twice _ _ _⟩
    · rw [led_control_vince_close_cb_log, hids, map_delete_released]
    · rw [led_control_vince_close_cb_log
        (led_control_vince_close_cb (led_control_vince_probe conf ctl channel w).2.2.1
          (led_control_vince_probe conf ctl channel w).2.2.2).1, hnull]
      simp [List.replicate]
  · intro r hr hok c1 hc1 c2 hc2
    subst hr
    have hids := led_control_mind2v2_probe_ok_ids ctl state w hok
    subst hc1
    subst hc2
    have hz : ∀ s v, (led_control_mind2v2_close_cb s v).1 = leds_state_mind2v2_zero :=
      fun s v => leds_state_mind2v2_quit_state s v
    have hnull : leds_state_mind2v2_ids leds_state_mind2v2_zero = List.replicate 13 none := by
      decide
    refine ⟨?_, ?_, ?_, ?_⟩
    · simp only [led_control_mind2v2_close_cb]
      rw [leds_state_mind2v2_quit_log, hids, map_delete_released]
    · rw [hz, hnull]
    · rw [hz]
      simp only [led_control_mind2v2_close_cb]
      rw [leds_state_mind2v2_quit_log, hnull]
      simp [List.replicate]
    · rw [hz, hz]

/-- Instance of C9: the triple-channel backend probed on a device that has the
red LED, the dual-unit backend on a device that has every file. -/
theorem close_cb_idempotent_witness :
    (led_control_vince_probe vince_conf_rgb led_control_with_config vince_channels_zero
      sysfs_red_only).1 = true ∧
    (led_control_mind2v2_probe led_control_with_config leds_state_mind2v2_zero
      sysfs_all_ok).1 = true ∧
    (led_control_vince_close_cb
      (led_control_vince_probe vince_conf_rgb led_control_with_config vince_channels_zero
        sysfs_red_only).2.2.1
      (led_control_vince_probe vince_conf_rgb led_control_with_config vince_channels_zero
        sysfs_red_only).2.2.2).2
      = { (led_control_vince_probe vince_conf_rgb led_control_with_config vince_channels_zero
            sysfs_red_only).2.2.2 with
          log := (led_control_vince_probe vince_conf_rgb led_control_with_config
            vince_channels_zero sysfs_red_only).2.2.2.log ++ released_from 0 9 } ∧
    (led_control_mind2v2_close_cb
      (led_control_mind2v2_probe led_control_with_config leds_state_mind2v2_zero
        sysfs_all_ok).2.2.1
      (led_control_mind2v2_probe led_control_with_config leds_state_mind2v2_zero
        sysfs_all_ok).2.2.2).2
      = { (led_control_mind2v2_probe led_control_with_config leds_state_mind2v2_zero
            sysfs_all_ok).2.2.2 with
          log := (led_control_mind2v2_probe led_control_with_config leds_state_mind2v2_zero
            sysfs_all_ok).2.2.2.log ++ released_from 0 13 } :=
  ⟨by decide, by decide,
   ((close_cb_idempotent vince_conf_rgb led_control_with_config vince_channels_zero
      leds_state_mind2v2_zero sysfs_red_only).1 _ rfl (by decide) _ rfl _ rfl).1,
   ((close_cb_idempotent vince_conf_rgb led_control_with_config vince_channels_zero
      leds_state_mind2v2_zero sysfs_all_ok).2 _ rfl (by decide) _ rfl _ rfl).1⟩

/-! ## Candidate ordering in the facade probes -/

/-- C10. Candidate ordering.  `led_control_vince_probe` first creates its
handles; with `use_config` set it runs the configuration candidate, and if
that succeeds it returns true with exactly the state and the record of
calls the configuration candidate left, so the hardcoded candidate was not
tried.  If the configuration candidate fails, or `use_config` is not set,
the hardcoded candidate is run next and its result is the result of the
probe; when it succeeds every channel has its blink and brightness handle
open on the hardcoded files and its max_brightness handle closed, so no
open handle refers to a file only the rejected candidate names.
`led_control_mind2v2_probe` behaves the same way; its configuration
candidate always fails without touching anything. -/
theorem facade_probe_candidate_order (conf : objconf_t) (ctl : led_control_t)
    (channel : vince_channels_t) (state : leds_state_mind2v2_t) (w : Sysfs) :
    (∀ i, i = led_control_vince_probe_init channel w →
     ∀ d, d = led_control_vince_dynamic_probe conf i.1 i.2 →
     ∀ r, r = led_control_vince_probe conf ctl channel w →
      (ctl.use_config = true → d.1 = true →
        r.1 = true ∧ r.2.2.1 = d.2.1 ∧ r.2.2.2 = d.2.2) ∧
      (∀ s, s = (if ctl.use_config then led_control_vince_static_probe d.2.1 d.2.2
                 else led_control_vince_static_probe i.1 i.2) →
        (ctl.use_config = true → d.1 = false) →
        r.1 = s.1 ∧
        (s.1 = true →
          r.2.2.1 = s.2.1 ∧ r.2.2.2 = s.2.2 ∧
          ∀ k, open_path (r.2.2.1 k).cached_blink = some "/sys/class/leds/red/blink" ∧
               open_path (r.2.2.1 k).cached_brightness
                 = some "/sys/class/leds/red/brightness" ∧
               is_open (r.2.2.1 k).cached_max_brightness = false)) ∧
      (∀ s, s = (if ctl.use_config then led_control_vince_static_probe d.2.1 d.2.2
                 else led_control_vince_static_probe i.1 i.2) →
        (r.1 = false ↔ (ctl.use_config = true → d.1 = false) ∧ s.1 = false))) ∧
    (∀ i, i = leds_state_mind2v2_init state w →
     ∀ r, r = led_control_mind2v2_probe ctl state w →
      led_control_mind2v2_dynamic_probe i.1 i.2 = (false, i.1, i.2) ∧
      ∀ s, s = led_control_mind2v2_static_probe i.1 i.2 →
        r.1 = s.1 ∧
        (s.1 = true →
          r.2.2.1 = s.2.1 ∧ r.2.2.2 = s.2.2 ∧
          open_path r.2.2.1.cached_power = some "/sys/class/leds/Led/brightness" ∧
          ∀ idx,
            open_path (r.2.2.1.led idx).cached_red = some (mind2v2_static_paths.led idx).red ∧
            open_path (r.2.2.1.led idx).cached_green
              = some (mind2v2_static_paths.led idx).green ∧
            open_path (r.2.2.1.led idx).cached_blue
              = some (mind2v2_static_paths.led idx).blue ∧
            is_open (r.2.2.1.led idx).cached_red_max = false ∧
            is_open (r.2.2.1.led idx).cached_green_max = false ∧
            is_open (r.2.2.1.led idx).cached_blue_max = false)) := by
  constructor
  · intro i hi d hd r hr
    subst hi hd hr
    have hA : ctl.use_config = true →
        (led_control_vince_dynamic_probe conf (led_control_vince_probe_init channel w).1
          (led_control_vince_probe_init channel w).2).1 = true →
        (led_control_vince_probe conf ctl channel w).1 = true ∧
        (led_control_vince_probe conf ctl channel w).2.2.1
          = (led_control_vince_dynamic_probe conf (led_control_vince_probe_init channel w).1
              (led_control_vince_probe_init channel w).2).2.1 ∧
        (led_control_vince_probe conf ctl channel w).2.2.2
          = (led_control_vince_dynamic_probe conf (led_control_vince_probe_init channel w).1
              (led_control_vince_probe_init channel w).2).2.2 := by
      intro hu hdok
      simp [led_control_vince_probe, hu, hdok]
    refine ⟨hA, ?_, ?_⟩
    rotate_left
    · intro s hs
      subst hs
      cases hu : ctl.use_config
      · simp only [led_control_vince_probe, hu, Bool.false_eq_true, if_false, Bool.not_false,
          if_true]
        cases hs : (led_control_vince_static_probe (led_control_vince_probe_init channel w).1
            (led_control_vince_probe_init channel w).2).1 <;> simp [hs]
      · cases hdc : (led_control_vince_dynamic_probe conf
            (led_control_vince_probe_init channel w).1
            (led_control_vince_probe_init channel w).2).1
        · simp only [led_control_vince_probe, hu, if_true, hdc, Bool.not_false]
          cases hs : (led_control_vince_static_probe
              (led_control_vince_dynamic_probe conf (led_control_vince_probe_init channel w).1
                (led_control_vince_probe_init channel w).2).2.1
              (led_control_vince_dynamic_probe conf (led_control_vince_probe_init channel w).1
                (led_control_vince_probe_init channel w).2).2.2).1 <;> simp [hs]
        · simp [(hA hu hdc).1]
    · intro s hs hfail
      subst hs
      cases hu : ctl.use_config
      · simp only [led_control_vince_probe, hu, Bool.false_eq_true, if_false, Bool.not_false,
          if_true]
        cases hs : (led_control_vince_static_probe (led_control_vince_probe_init channel w).1
            (led_control_vince_probe_init channel w).2).1
        · simp [hs]
        · simp only [hs, Bool.not_true, Bool.false_eq_true, if_false, true_and, forall_true_left]
          exact fun k => led_control_vince_static_probe_ok _ _ hs k
      · have hdf := hfail hu
        simp only [led_control_vince_probe, hu, if_true, hdf, Bool.not_false]
        cases hs : (led_control_vince_static_probe
            (led_control_vince_dynamic_probe conf (led_control_vince_probe_init channel w).1
              (led_control_vince_probe_init channel w).2).2.1
            (led_control_vince_dynamic_probe conf (led_control_vince_probe_init channel w).1
              (led_control_vince_probe_init channel w).2).2.2).1
        · simp [hs]
        · simp only [hs, Bool.not_true, Bool.false_eq_true, if_false, true_and, forall_true_left]
          exact fun k => led_control_vince_static_probe_ok _ _ hs k
  · intro i hi r hr
    subst hi hr
    refine ⟨rfl, ?_⟩
    intro s hs
    subst hs
    simp only [led_control_mind2v2_probe, led_control_mind2v2_dynamic_probe, ite_self,
      Bool.not_false, if_true]
    cases hs : (led_control_mind2v2_static_probe (leds_state_mind2v2_init state w).1
        (leds_state_mind2v2_init state w).2).1
    · simp [hs]
    · simp only [hs, Bool.not_true, Bool.false_eq_true, if_false, true_and, forall_true_left]
      exact (leds_state_mind2v2_probe_outcome _ mind2v2_static_paths _).2 hs

/-- Instance of C10: on a device that has only the red LED, with a configuration
whose `Green` files are missing, the configuration candidate fails after
channel 0 had probed, the hardcoded candidate succeeds, and the probe
returns true with all channels on the hardcoded files. -/
theorem facade_probe_candidate_order_witness :
    (led_control_vince_dynamic_probe vince_conf_rgb (vince_fresh sysfs_red_only).1
      (vince_fresh sysfs_red_only).2).1 = false ∧
    (led_control_vince_probe vince_conf_rgb led_control_with_config vince_channels_zero
      sysfs_red_only).1 = true ∧
    ∀ k, open_path ((led_control_vince_probe vince_conf_rgb led_control_with_config
          vince_channels_zero sysfs_red_only).2.2.1 k).cached_blink
          = some "/sys/class/leds/red/blink" ∧
         open_path ((led_control_vince_probe vince_conf_rgb led_control_with_config
          vince_channels_zero sysfs_red_only).2.2.1 k).cached_brightness
          = some "/sys/class/leds/red/brightness" ∧
         is_open ((led_control_vince_probe vince_conf_rgb led_control_with_config
          vince_channels_zero sysfs_red_only).2.2.1 k).cached_max_brightness = false :=
  ⟨by decide, by decide,
   ((((facade_probe_candidate_order vince_conf_rgb led_control_with_config vince_channels_zero
      leds_state_mind2v2_zero sysfs_red_only).1 _ rfl _ rfl _ rfl).2.1 _ rfl
        (fun _ => by decide)).2 (by decide)).2.2⟩

/-! ## Configuration failure in the dynamic probe -/

theorem calls_on_refl (ids : List (Option Nat)) (w : Sysfs) : calls_on ids w w :=
  ⟨[], by simp, by simp⟩

theorem calls_on_trans (ids : List (Option Nat)) (w0 w1 w2 : Sysfs)
    (h01 : calls_on ids w0 w1) (h12 : calls_on ids w1 w2) : calls_on ids w0 w2 := by
  obtain ⟨e1, hl1, hm1⟩ := h01
  obtain ⟨e2, hl2, hm2⟩ := h12
  refine ⟨e1 ++ e2, by rw [hl2, hl1, List.append_assoc], ?_⟩
  intro e he
  rcases List.mem_append.mp he with h | h
  · exact hm1 e h
  · exact hm2 e h

theorem calls_on_emit (ids : List (Option Nat)) (w0 w1 : Sysfs) (e : Event)
    (h01 : calls_on ids w0 w1) (he : event_handle e ∈ ids) :
    calls_on ids w0 (w1.emit e) :=
  calls_on_trans ids w0 w1 _ h01 ⟨[e], rfl, by simpa using he⟩

theorem calls_open_rw_step (ids : List (Option Nat)) (w0 w1 : Sysfs) (h : Option sysfsval_t)
    (p : String) (h01 : calls_on ids w0 w1) (hm : handle_id h ∈ ids) :
    calls_on ids w0 (sysfsval_open_rw h p w1).2.2 := by
  unfold sysfsval_open_rw
  cases h with
  | none =>
    refine calls_on_emit _ _ _ _ h01 ?_
    simpa [event_handle, handle_id] using hm
  | some s =>
    by_cases hw : w1.rw_ok w1.log.length p = true
    all_goals
      simp only [hw, if_true, if_false]
      refine calls_on_emit _ _ _ _ h01 ?_
      simpa [event_handle, handle_id] using hm

theorem calls_open_ro_step (ids : List (Option Nat)) (w0 w1 : Sysfs) (h : Option sysfsval_t)
    (p : String) (h01 : calls_on ids w0 w1) (hm : handle_id h ∈ ids) :
    calls_on ids w0 (sysfsval_open_ro h p w1).2.2 := by
  unfold sysfsval_open_ro
  cases h with
  | none =>
    refine calls_on_emit _ _ _ _ h01 ?_
    simpa [event_handle, handle_id] using hm
  | some s =>
    by_cases hw : w1.ro_ok w1.log.length p = true
    all_goals
      simp only [hw, if_true, if_false]
      refine calls_on_emit _ _ _ _ h01 ?_
      simpa [event_handle, handle_id] using hm

theorem calls_refresh_step (ids : List (Option Nat)) (w0 w1 : Sysfs) (h : Option sysfsval_t)
    (h01 : calls_on ids w0 w1) (hm : handle_id h ∈ ids) :
    calls_on ids w0 (sysfsval_refresh h w1).2.2 := by
  unfold sysfsval_refresh
  cases h with
  | none =>
    refine calls_on_emit _ _ _ _ h01 ?_
    simpa [event_handle, handle_id] using hm
  | some s =>
    cases hp : s.path with
    | none =>
      simp only [hp]
      refine calls_on_emit _ _ _ _ h01 ?_
      simpa [event_handle, handle_id] using hm
    | some q =>
      by_cases hw : w1.refresh_ok w1.log.length q = true
      all_goals
        simp only [hp, hw, if_true, if_false]
        refine calls_on_emit _ _ _ _ h01 ?_
        simpa [event_handle, handle_id] using hm

theorem calls_set_step (ids : List (Option Nat)) (w0 w1 : Sysfs) (h : Option sysfsval_t)
    (v : Int) (h01 : calls_on ids w0 w1) (hm : handle_id h ∈ ids) :
    calls_on ids w0 (sysfsval_set h v w1).2 := by
  obtain ⟨evs, hl, hmem⟩ := h01
  refine ⟨evs ++ [Event.set (handle_id h) v], ?_, ?_⟩
  · rw [sysfsval_set_log, hl, List.append_assoc]
  · intro e he
    rcases List.mem_append.mp he with h1 | h1
    · exact hmem e h1
    · simp only [List.mem_singleton] at h1
      subst h1
      exact hm

theorem calls_close_step (ids : List (Option Nat)) (w0 w1 : Sysfs) (h : Option sysfsval_t)
    (h01 : calls_on ids w0 w1) (hm : handle_id h ∈ ids) :
    calls_on ids w0 (sysfsval_close h w1).2 := by
  cases h with
  | none =>
    refine calls_on_emit _ _ _ _ h01 ?_
    simpa [event_handle, handle_id] using hm
  | some s =>
    refine calls_on_emit _ _ _ _ h01 ?_
    simpa [event_handle, handle_id] using hm

/-- Every call `led_channel_vince_probe` makes is on one of the three handles
of the channel it is given. -/
theorem led_channel_vince_probe_calls (s : led_channel_vince_t) (p : led_paths_vince_t)
    (w : Sysfs) :
    calls_on (led_channel_vince_ids s) w (led_channel_vince_probe s p w).2.2 := by
  simp only [led_channel_vince_probe, led_channel_vince_probe_checks]
  split_ifs
  all_goals
    repeat' first
      | exact calls_on_refl _ _
      | apply calls_open_rw_step
      | apply calls_open_ro_step
      | apply calls_set_step
      | apply calls_refresh_step
      | apply calls_close_step
  all_goals
    simp [led_channel_vince_ids, handle_id_open_rw, handle_id_open_ro, handle_id_set,
      handle_id_refresh, handle_id_close]

theorem led_control_vince_dynamic_probe_loop_parse_fail (conf : objconf_t)
    (l : List (Fin VINCE_CHANNELS)) :
    ∀ (ch : vince_channels_t) (w : Sysfs) (i : Fin VINCE_CHANNELS),
      i ∈ l → conf (vince_pfix i) = none →
      (led_control_vince_dynamic_probe_loop conf l ch w).1 = false ∧
      (∀ k, k ∉ l.takeWhile (fun j => decide (j ≠ i)) →
        (led_control_vince_dynamic_probe_loop conf l ch w).2.1 k = ch k) ∧
      ∃ evs, (led_control_vince_dynamic_probe_loop conf l ch w).2.2.log = w.log ++ evs ∧
        ∀ e ∈ evs, ∃ j ∈ l.takeWhile (fun j => decide (j ≠ i)),
          event_handle e ∈ led_channel_vince_ids (ch j) := by
  induction l with
  | nil => intro ch w i hi; simp at hi
  | cons j rest ih =>
    intro ch w i hi hnone
    by_cases hji : j = i
    · subst hji
      have hr : led_control_vince_dynamic_probe_loop conf (j :: rest) ch w = (false, ch, w) := by
        simp only [led_control_vince_dynamic_probe_loop, hnone]
      rw [hr]
      exact ⟨rfl, fun _ _ => rfl, [], by simp, by simp⟩
    · have hrest : i ∈ rest := by
        rcases List.mem_cons.mp hi with h | h
        · exact absurd h.symm hji
        · exact h
      have htw : (j :: rest).takeWhile (fun j => decide (j ≠ i))
          = j :: rest.takeWhile (fun j => decide (j ≠ i)) := by
        simp [List.takeWhile, hji]
      rw [htw]
      cases hc : conf (vince_pfix j) with
      | none =>
        have hr : led_control_vince_dynamic_probe_loop conf (j :: rest) ch w
            = (false, ch, w) := by
          simp only [led_control_vince_dynamic_probe_loop, hc]
        rw [hr]
        exact ⟨rfl, fun _ _ => rfl, [], by simp, by simp⟩
      | some paths =>
        simp only [led_control_vince_dynamic_probe_loop, hc]
        obtain ⟨evs1, hl1, hm1⟩ := led_channel_vince_probe_calls (ch j) paths w
        cases hp : (led_channel_vince_probe (ch j) paths w).1
        · simp only [Bool.not_false, if_true]
          refine ⟨trivial, ?_, evs1, hl1, ?_⟩
          · intro k hk
            have hkj : k ≠ j := fun h => hk (by simp [h])
            exact Function.update_noteq hkj _ _
          · intro e he
            exact ⟨j, by simp, hm1 e he⟩
        · simp only [Bool.not_true, Bool.false_eq_true, if_false]
          obtain ⟨h1, h2, evs2, hl2, hm2⟩ :=
            ih (Function.update ch j (led_channel_vince_probe (ch j) paths w).2.1)
              (led_channel_vince_probe (ch j) paths w).2.2 i hrest hnone
          refine ⟨h1, ?_, evs1 ++ evs2, ?_, ?_⟩
          · intro k hk
            have hkj : k ≠ j := fun h => hk (by simp [h])
            have hkt : k ∉ rest.takeWhile (fun j => decide (j ≠ i)) :=
              fun h => hk (List.mem_cons_of_mem _ h)
            rw [h2 k hkt]
            exact Function.update_noteq hkj _ _
          · rw [hl2, hl1, List.append_assoc]
          · intro e he
            rcases List.mem_append.mp he with h | h
            · exact ⟨j, by simp, hm1 e h⟩
            · obtain ⟨j2, hj2, hmem⟩ := hm2 e h
              rw [vince_update_probe_ids] at hmem
              exact ⟨j2, List.mem_cons_of_mem _ hj2, hmem⟩

theorem vince_indices_before (i j : Fin VINCE_CHANNELS) :
    j ∈ VINCE_CHANNEL_INDICES.takeWhile (fun j => decide (j ≠ i)) ↔ j < i := by
  revert i j
  decide

/-- C11, refuted as stated: the configuration has the keys of `Red` and lacks
those of `Green`; parsing fails for `Green`, the candidate is skipped, and
by then the blink file of the red LED has been opened for channel 0. -/
theorem vince_dynamic_probe_parse_failure_counterexample :
    vince_conf_red_only (vince_pfix 1) = none ∧
    (led_control_vince_dynamic_probe vince_conf_red_only (vince_fresh sysfs_red_only).1
      (vince_fresh sysfs_red_only).2).1 = false ∧
    ((led_control_vince_dynamic_probe vince_conf_red_only (vince_fresh sysfs_red_only).1
        (vince_fresh sysfs_red_only).2).2.2.log.drop
      (vince_fresh sysfs_red_only).2.log.length).filter is_open_call
      = [Event.open_rw (some 2) "/sys/class/leds/red/blink" true,
         Event.open_ro (some 0) "/sys/class/leds/red/max_brightness" true,
         Event.open_rw (some 1) "/sys/class/leds/red/brightness" true] := by
  decide

/-- C11, amended.  When `objconf_parse` fails for the prefix of channel `i`,
`led_control_vince_dynamic_probe` returns false, the channel `i` and every
later channel are left exactly as they were, and every call made during
the attempt is on a handle of a channel before `i`: no file open is
attempted for the channel whose parsing failed or for a later one.  When
the failing prefix is `Red` nothing at all has been done. -/
theorem vince_dynamic_probe_parse_failure (conf : objconf_t) (ch : vince_channels_t)
    (w : Sysfs) (i : Fin VINCE_CHANNELS) (hfail : conf (vince_pfix i) = none) :
    (led_control_vince_dynamic_probe conf ch w).1 = false ∧
    (∀ k, i ≤ k → (led_control_vince_dynamic_probe conf ch w).2.1 k = ch k) ∧
    (∃ evs, (led_control_vince_dynamic_probe conf ch w).2.2.log = w.log ++ evs ∧
      ∀ e ∈ evs, ∃ j, j < i ∧ event_handle e ∈ led_channel_vince_ids (ch j)) ∧
    (i = 0 → led_control_vince_dynamic_probe conf ch w = (false, ch, w)) := by
  have hi : ∀ k : Fin VINCE_CHANNELS, k ∈ VINCE_CHANNEL_INDICES := by decide
  obtain ⟨h1, h2, evs, hl, hm⟩ :=
    led_control_vince_dynamic_probe_loop_parse_fail conf VINCE_CHANNEL_INDICES ch w i (hi i)
      hfail
  refine ⟨h1, ?_, ⟨evs, hl, ?_⟩, ?_⟩
  · intro k hk
    exact h2 k (fun h => absurd ((vince_indices_before i k).mp h) (not_lt.mpr hk))
  · intro e he
    obtain ⟨j, hj, hmem⟩ := hm e he
    exact ⟨j, (vince_indices_before i j).mp hj, hmem⟩
  · intro h0
    subst h0
    simp only [led_control_vince_dynamic_probe, VINCE_CHANNEL_INDICES,
      led_control_vince_dynamic_probe_loop, hfail]

/-- Instance of amended C11: with the keys of `Green` missing, the attempt on a
device that has the red LED returns false and leaves channels 1 and 2 with
the closed handles they were created with. -/
theorem vince_dynamic_probe_parse_failure_witness :
    vince_conf_red_only (vince_pfix 1) = none ∧
    (led_control_vince_dynamic_probe vince_conf_red_only (vince_fresh sysfs_red_only).1
      (vince_fresh sysfs_red_only).2).1 = false ∧
    ∀ k, (1 : Fin VINCE_CHANNELS) ≤ k →
      (led_control_vince_dynamic_probe vince_conf_red_only (vince_fresh sysfs_red_only).1
        (vince_fresh sysfs_red_only).2).2.1 k = (vince_fresh sysfs_red_only).1 k :=
  ⟨by decide,
   (vince_dynamic_probe_parse_failure vince_conf_red_only (vince_fresh sysfs_red_only).1
      (vince_fresh sysfs_red_only).2 1 (by decide)).1,
   (vince_dynamic_probe_parse_failure vince_conf_red_only (vince_fresh sysfs_red_only).1
      (vince_fresh sysfs_red_only).2 1 (by decide)).2.1⟩

/-! ## Acceptance of a channel -/

theorem sysfsval_get_close (h : Option sysfsval_t) (w : Sysfs) :
    sysfsval_get (sysfsval_close h w).1 = sysfsval_get h := by
  cases h <;> rfl

/-- A channel is only accepted with a positive cached maximum. -/
theorem led_channel_vince_probe_max_positive (s : led_channel_vince_t) (p : led_paths_vince_t)
    (w : Sysfs) (hok : (led_channel_vince_probe s p w).1 = true) :
    0 < sysfsval_get (led_channel_vince_probe s p w).2.1.cached_max_brightness := by
  simp only [led_channel_vince_probe, led_channel_vince_probe_checks] at hok ⊢
  split_ifs at hok ⊢ with h1 h2 h3 h4
  all_goals first
    | (simp at hok; done)
    | (simp only [sysfsval_get_close]; omega)

/-- C12, failing input.  On a freshly created channel, with every file of the
red LED opening, the max_brightness file holding 0 and its re-read failing,
`led_channel_vince_probe` returns true: the result of `sysfsval_refresh` is
not looked at, and the value tested against 0 is the 255 written just
before.  The max_brightness handle is closed on return. -/
theorem vince_probe_accepts_unread_maximum :
    (led_channel_vince_probe (led_channel_vince_init sysfs_max_unreadable).1 vince_red_paths
      (led_channel_vince_init sysfs_max_unreadable).2).1 = true ∧
    Event.refresh (some 0) false ∈
      (led_channel_vince_probe (led_channel_vince_init sysfs_max_unreadable).1 vince_red_paths
        (led_channel_vince_init sysfs_max_unreadable).2).2.2.log ∧
    (led_channel_vince_probe (led_channel_vince_init sysfs_max_unreadable).1 vince_red_paths
      (led_channel_vince_init sysfs_max_unreadable).2).2.2.files
        "/sys/class/leds/red/max_brightness" = 0 ∧
    sysfsval_get (led_channel_vince_probe (led_channel_vince_init sysfs_max_unreadable).1
      vince_red_paths (led_channel_vince_init sysfs_max_unreadable).2).2.1.cached_max_brightness
        = 255 ∧
    is_open (led_channel_vince_probe (led_channel_vince_init sysfs_max_unreadable).1
      vince_red_paths (led_channel_vince_init sysfs_max_unreadable).2).2.1.cached_max_brightness
        = false := by
  decide

/-! ## The files behind the three channels -/

theorem sysfsval_set_kernel (h : Option sysfsval_t) (v : Int) (w : Sysfs) :
    (sysfsval_set h v w).2.kernel = w.kernel := by
  unfold sysfsval_set
  cases h with
  | none => rfl
  | some s => cases hp : s.path <;> simp [hp, Sysfs.emit]

theorem sysfsval_set_files (h : Option sysfsval_t) (v : Int) (w : Sysfs) (p : String)
    (hp : open_path h = some p) :
    (sysfsval_set h v w).2.files p = w.kernel p v := by
  unfold sysfsval_set
  cases h with
  | none => simp [open_path] at hp
  | some s =>
    simp only [open_path] at hp
    simp [hp, Sysfs.emit]

/-- In static mode `led_channel_vince_set_value` changes the world by its two
writes, blink first. -/
theorem led_channel_vince_set_value_static (c : led_channel_vince_t) (v : Int) (w : Sysfs)
    (hc : c.control_blink = false) :
    (led_channel_vince_set_value c v w).2
      = (sysfsval_set c.cached_brightness (led_channel_vince_rescale v)
          (sysfsval_set c.cached_blink 0 w).2).2 := by
  unfold led_channel_vince_set_value
  by_cases hv : led_channel_vince_rescale v ≤ 0 <;> simp [hv, hc]

theorem led_control_vince_value_cb_world (st : vince_channels_t) (r g b : Int) (w : Sysfs) :
    (led_control_vince_value_cb st r g b w).2
      = (led_channel_vince_set_value (st 2) b
          (led_channel_vince_set_value (st 1) g
            (led_channel_vince_set_value (st 0) r w).2).2).2 := by
  have h10 : (1 : Fin VINCE_CHANNELS) ≠ 0 := by decide
  have h20 : (2 : Fin VINCE_CHANNELS) ≠ 0 := by decide
  have h21 : (2 : Fin VINCE_CHANNELS) ≠ 1 := by decide
  simp only [led_control_vince_value_cb, Function.update_noteq h10, Function.update_noteq h20,
    Function.update_noteq h21]

/-- A value call in static mode: the six writes it records, and the content
of the file the brightness handle of channel 2 is open on. -/
theorem led_control_vince_value_cb_static (st : vince_channels_t) (r g b : Int) (w : Sysfs)
    (pb : String) (hstatic : ∀ k, (st k).control_blink = false)
    (hbr : open_path (st 2).cached_brightness = some pb) :
    (led_control_vince_value_cb st r g b w).2.log = w.log ++
      [Event.set (handle_id (st 0).cached_blink) 0,
       Event.set (handle_id (st 0).cached_brightness) (led_channel_vince_rescale r),
       Event.set (handle_id (st 1).cached_blink) 0,
       Event.set (handle_id (st 1).cached_brightness) (led_channel_vince_rescale g),
       Event.set (handle_id (st 2).cached_blink) 0,
       Event.set (handle_id (st 2).cached_brightness) (led_channel_vince_rescale b)] ∧
    (led_control_vince_value_cb st r g b w).2.files pb
      = w.kernel pb (led_channel_vince_rescale b) := by
  rw [led_control_vince_value_cb_world,
    led_channel_vince_set_value_static (st 2) b _ (hstatic 2),
    led_channel_vince_set_value_static (st 1) g _ (hstatic 1),
    led_channel_vince_set_value_static (st 0) r _ (hstatic 0)]
  constructor
  · simp only [sysfsval_set_log, List.append_assoc, List.singleton_append, List.cons_append,
      List.nil_append]
  · rw [sysfsval_set_files _ _ _ pb hbr]
    simp only [sysfsval_set_kernel]

/-- C13, refuted as stated: the one hardcoded candidate gives the three
channels the same brightness file; after a successful hardcoded probe the
call `value(1, 2, 3)` in static mode leaves that file holding 48, the value
written for channel 2, and not 16, the rescaled value of channel 0. -/
theorem vince_hardcoded_channels_alias_counterexample :
    vince_paths.map
        (fun cand => ((cand 0).brightness, (cand 1).brightness, (cand 2).brightness))
      = [("/sys/class/leds/red/brightness", "/sys/class/leds/red/brightness",
          "/sys/class/leds/red/brightness")] ∧
    (led_control_vince_probe vince_conf_rgb led_control_no_config vince_channels_zero
      sysfs_red_only).1 = true ∧
    (∀ k, ((led_control_vince_probe vince_conf_rgb led_control_no_config vince_channels_zero
      sysfs_red_only).2.2.1 k).control_blink = false) ∧
    led_channel_vince_rescale 1 = 16 ∧
    (led_control_vince_value_cb
      (led_control_vince_probe vince_conf_rgb led_control_no_config vince_channels_zero
        sysfs_red_only).2.2.1 1 2 3
      (led_control_vince_probe vince_conf_rgb led_control_no_config vince_channels_zero
        sysfs_red_only).2.2.2).2.files "/sys/class/leds/red/brightness" = 48 := by
  decide

/-- C13, amended.  Every hardcoded candidate of `led_control_vince_static_probe`
gives all three channels the same three files, those of
`/sys/class/leds/red`; so after a successful hardcoded probe the brightness
handles of the three channels are open on one and the same file, a
`value(r, g, b)` call in static mode records blink := 0 and
brightness := rescaled value for channel 0, then 1, then 2, and that file
ends up holding what the kernel stores for the rescaled `b`. -/
theorem vince_hardcoded_channels_share_files (ch : vince_channels_t) (w : Sysfs)
    (r g b : Int) :
    (∀ cand ∈ vince_paths, ∀ k, cand k = vince_red_paths) ∧
    (∀ s, s = led_control_vince_static_probe ch w → s.1 = true →
      (∀ k, (s.2.1 k).control_blink = false) →
      ∀ v, v = led_control_vince_value_cb s.2.1 r g b s.2.2 →
        (∀ k, open_path (s.2.1 k).cached_brightness
          = some "/sys/class/leds/red/brightness") ∧
        v.2.log = s.2.2.log ++
          [Event.set (handle_id (s.2.1 0).cached_blink) 0,
           Event.set (handle_id (s.2.1 0).cached_brightness) (led_channel_vince_rescale r),
           Event.set (handle_id (s.2.1 1).cached_blink) 0,
           Event.set (handle_id (s.2.1 1).cached_brightness) (led_channel_vince_rescale g),
           Event.set (handle_id (s.2.1 2).cached_blink) 0,
           Event.set (handle_id (s.2.1 2).cached_brightness) (led_channel_vince_rescale b)] ∧
        v.2.files "/sys/class/leds/red/brightness"
          = s.2.2.kernel "/sys/class/leds/red/brightness" (led_channel_vince_rescale b)) := by
  constructor
  · intro cand hcand k
    simp only [vince_paths, List.mem_singleton] at hcand
    subst hcand
    rfl
  · intro s hs hok hstatic v hv
    subst hs hv
    have hopen := fun k => (led_control_vince_static_probe_ok ch w hok k).2.1
    obtain ⟨hlog, hfiles⟩ := led_control_vince_value_cb_static
      (led_control_vince_static_probe ch w).2.1 r g b (led_control_vince_static_probe ch w).2.2
      "/sys/class/leds/red/brightness" hstatic (hopen 2)
    exact ⟨hopen, hlog, hfiles⟩

/-- Instance of amended C13: after the hardcoded probe on a device that has the
red LED, `value(1, 2, 3)` leaves the shared brightness file holding what
the kernel stores for the rescaled 3. -/
theorem vince_hardcoded_channels_share_files_witness :
    (led_control_vince_static_probe (vince_fresh sysfs_red_only).1
      (vince_fresh sysfs_red_only).2).1 = true ∧
    (led_control_vince_value_cb
      (led_control_vince_static_probe (vince_fresh sysfs_red_only).1
        (vince_fresh sysfs_red_only).2).2.1 1 2 3
      (led_control_vince_static_probe (vince_fresh sysfs_red_only).1
        (vince_fresh sysfs_red_only).2).2.2).2.files "/sys/class/leds/red/brightness"
      = (led_control_vince_static_probe (vince_fresh sysfs_red_only).1
          (vince_fresh sysfs_red_only).2).2.2.kernel "/sys/class/leds/red/brightness"
          (led_channel_vince_rescale 3) :=
  ⟨by decide,
   ((vince_hardcoded_channels_share_files (vince_fresh sysfs_red_only).1
      (vince_fresh sysfs_red_only).2 1 2 3).2 _ rfl (by decide) (by decide) _ rfl).2.2⟩

/-- When the three handles of a channel exist, `led_channel_vince_probe` accepts
exactly when the blink file opens read-write, the max_brightness file opens
read-only, the value then cached for it is positive, and the brightness
file opens read-write; the cached value is what the kernel made of the
written 255 when the re-read succeeds, and the written 255 itself when the
re-read fails. -/
theorem led_channel_vince_probe_accept_iff (s : led_channel_vince_t) (p : led_paths_vince_t)
    (w : Sysfs) (hk : s.cached_blink ≠ none) (hm : s.cached_max_brightness ≠ none)
    (hb : s.cached_brightness ≠ none) :
    (led_channel_vince_probe s p w).1 = true ↔
      w.rw_ok w.log.length p.blink = true ∧
      w.ro_ok (w.log.length + 1) p.max_brightness = true ∧
      0 < (if w.refresh_ok (w.log.length + 3) p.max_brightness = true
            then w.kernel p.max_brightness 255 else 255) ∧
      w.rw_ok (w.log.length + 4) p.brightness = true := by
  obtain ⟨hk0, hk1⟩ := Option.ne_none_iff_exists.mp hk
  obtain ⟨hm0, hm1⟩ := Option.ne_none_iff_exists.mp hm
  obtain ⟨hb0, hb1⟩ := Option.ne_none_iff_exists.mp hb
  by_cases c1 : w.rw_ok w.log.length p.blink = true <;>
  by_cases c2 : w.ro_ok (w.log.length + 1) p.max_brightness = true <;>
  by_cases c3 : w.refresh_ok (w.log.length + 3) p.max_brightness = true <;>
  by_cases c4 : w.rw_ok (w.log.length + 4) p.brightness = true <;>
  by_cases c5 : w.kernel p.max_brightness 255 ≤ 0 <;>
  simp [led_channel_vince_probe, led_channel_vince_probe_checks, sysfsval_open_rw,
    sysfsval_open_ro, sysfsval_set, sysfsval_refresh, sysfsval_get, sysfsval_close,
    Sysfs.emit, ← hk1, ← hm1, ← hb1, c1, c2, c3, c4, c5]
  all_goals omega

end SysfsLed
